import Mathlib

/-!
Verification development for the `docasst` document-review core.

This file gives a shallow embedding, in Lean 4, of the parts of the source
that the specification's claims are about:

* `src/core/vfs.py` — the virtual file system projection (`DocReviewVFSAdapter`);
* `src/core/agent.py` — the workflow orchestrator (`_run_node`, `orchestrate`,
  `_advance_control`, `NODE_TRANSITIONS`), the advisory run lock
  (`_acquire_run_lock` / `_release_run_lock`), and the change engine
  (`_select_changes_for_application`, `_apply_changes_core`,
  `_register_vfs_artifact`, `_sync_vfs_artifacts`);
* `src/core/riskgpt_nodes.py` / `src/core/riskgpt_agent.py` — the assistant
  router state machine.

Modelling conventions: Python dictionaries with fixed key sets become Lean
structures; `dict.get(k, default)` on an always-present key becomes a total
field, and on a possibly-`None` key becomes an `Option` field; raised
exceptions become `Except` errors; `logger.warning` calls surface as an
explicit list of warning strings in the result; wall-clock timestamps are
passed in as an opaque `now : String` parameter (the code only ever stores
them); LLM and tool capabilities are passed in as explicit arguments, as the
spec describes them (injected capability interfaces).  Python string
predicates (`isalnum`, `strip`, `lower`) are modelled by their ASCII
counterparts, which agree with Python on all inputs used in this file.
-/

/-! ## A small JSON model (for `json.dumps` / `json.loads` as used by vfs.py) -/

/-- JSON values.  Numbers keep their source lexeme, which is all the code under
verification ever needs (it never computes with JSON numbers). -/
inductive JsonValue where
  | null
  | bool (b : Bool)
  | num (lexeme : String)
  | str (s : String)
  | arr (items : List JsonValue)
  | obj (fields : List (String × JsonValue))

/-- Python truthiness of a JSON value (`bool(x)` on the decoded object):
`None`, `False`, zero, empty string, empty list and empty dict are falsy. -/
def jsonTruthy : JsonValue → Bool
  | .null => false
  | .bool b => b
  | .num s =>
      ((s.toList.takeWhile (fun c => c ≠ 'e' ∧ c ≠ 'E')).any
        (fun c => '1' ≤ c ∧ c ≤ '9'))
  | .str s => s ≠ ""
  | .arr xs => !xs.isEmpty
  | .obj fs => !fs.isEmpty

/-- Escape of one character inside a JSON string literal
(`ensure_ascii=False`, so non-ASCII characters pass through unchanged). -/
def jsonEscapeChar (c : Char) : String :=
  if c = '"' then "\\\""
  else if c = '\\' then "\\\\"
  else if c = '\n' then "\\n"
  else if c = '\t' then "\\t"
  else if c = '\r' then "\\r"
  else String.singleton c

/-- Quoted JSON string literal. -/
def jsonQuote (s : String) : String :=
  "\"" ++ String.join (s.toList.map jsonEscapeChar) ++ "\""

/-- Indentation used by `json.dumps(..., indent=2)`. -/
def jsonSpaces (n : Nat) : String :=
  String.mk (List.replicate n ' ')

mutual

/-- Serialization of a JSON value in the style of
`json.dumps(x, indent=2, ensure_ascii=False)`; `ind` is the indentation of
the surrounding context.  Empty containers render inline, as in Python:
`json.dumps({}, indent=2) == "\x7b\x7d"` and `json.dumps([], indent=2) == "[]"`. -/
def jsonDumpsAux : JsonValue → Nat → String
  | .null, _ => "null"
  | .bool true, _ => "true"
  | .bool false, _ => "false"
  | .num s, _ => s
  | .str s, _ => jsonQuote s
  | .arr [], _ => "[]"
  | .arr items, ind =>
      "[\n" ++ jsonDumpsItems items (ind + 2) ++ "\n" ++ jsonSpaces ind ++ "]"
  | .obj [], _ => "\x7b\x7d"
  | .obj fields, ind =>
      "\x7b\n" ++ jsonDumpsFields fields (ind + 2) ++ "\n" ++ jsonSpaces ind ++ "\x7d"

/-- Comma-and-newline separated serialization of array items at indent `ind`. -/
def jsonDumpsItems : List JsonValue → Nat → String
  | [], _ => ""
  | [x], ind => jsonSpaces ind ++ jsonDumpsAux x ind
  | x :: y :: xs, ind =>
      jsonSpaces ind ++ jsonDumpsAux x ind ++ ",\n" ++ jsonDumpsItems (y :: xs) ind

/-- Comma-and-newline separated serialization of object fields at indent `ind`. -/
def jsonDumpsFields : List (String × JsonValue) → Nat → String
  | [], _ => ""
  | [(k, v)], ind => jsonSpaces ind ++ jsonQuote k ++ ": " ++ jsonDumpsAux v ind
  | (k, v) :: f :: fs, ind =>
      jsonSpaces ind ++ jsonQuote k ++ ": " ++ jsonDumpsAux v ind ++ ",\n" ++
        jsonDumpsFields (f :: fs) ind

end

/-- Model of `json.dumps(x, indent=2, ensure_ascii=False)`. -/
def jsonDumps (v : JsonValue) : String :=
  jsonDumpsAux v 0

/-- JSON whitespace skipping. -/
def jsonSkipWs : List Char → List Char
  | [] => []
  | c :: rest =>
      if c = ' ' ∨ c = '\n' ∨ c = '\t' ∨ c = '\r' then jsonSkipWs rest else c :: rest

/-- Decode one escape character of a JSON string (the `\uXXXX` form is handled
by the caller). -/
def jsonUnescapeChar (c : Char) : Option Char :=
  if c = '"' then some '"'
  else if c = '\\' then some '\\'
  else if c = '/' then some '/'
  else if c = 'b' then some (Char.ofNat 8)
  else if c = 'f' then some (Char.ofNat 12)
  else if c = 'n' then some '\n'
  else if c = 'r' then some '\r'
  else if c = 't' then some '\t'
  else none

/-- Value of a hexadecimal digit. -/
def hexDigitVal (c : Char) : Option Nat :=
  if '0' ≤ c ∧ c ≤ '9' then some (c.toNat - '0'.toNat)
  else if 'a' ≤ c ∧ c ≤ 'f' then some (c.toNat - 'a'.toNat + 10)
  else if 'A' ≤ c ∧ c ≤ 'F' then some (c.toNat - 'A'.toNat + 10)
  else none

/-- Parse the body of a JSON string literal, after the opening quote. -/
def jsonParseStringBody : List Char → Option (String × List Char)
  | [] => none
  | '"' :: rest => some ("", rest)
  | '\\' :: 'u' :: a :: b :: c :: d :: rest => do
      let va ← hexDigitVal a
      let vb ← hexDigitVal b
      let vc ← hexDigitVal c
      let vd ← hexDigitVal d
      let (s, r) ← jsonParseStringBody rest
      pure (String.singleton (Char.ofNat (((va * 16 + vb) * 16 + vc) * 16 + vd)) ++ s, r)
  | '\\' :: e :: rest => do
      let ch ← jsonUnescapeChar e
      let (s, r) ← jsonParseStringBody rest
      pure (String.singleton ch ++ s, r)
  | c :: rest => do
      let (s, r) ← jsonParseStringBody rest
      pure (String.singleton c ++ s, r)

/-- Parse a JSON number lexeme (optional sign, digits, optional fraction and
exponent), returning the lexeme unchanged. -/
def jsonParseNumber (cs : List Char) : Option (String × List Char) :=
  let (sign, rest) :=
    match cs with
    | '-' :: r => ("-", r)
    | _ => ("", cs)
  let intDigits := rest.takeWhile Char.isDigit
  let rest1 := rest.dropWhile Char.isDigit
  if intDigits = [] then none
  else
    let (fracPart, rest2) :=
      match rest1 with
      | '.' :: r =>
          let ds := r.takeWhile Char.isDigit
          if ds = [] then ("", rest1)
          else ("." ++ String.mk ds, r.dropWhile Char.isDigit)
      | _ => ("", rest1)
    let (expPart, rest3) :=
      match rest2 with
      | e :: r =>
          if e = 'e' ∨ e = 'E' then
            let (es, r2) :=
              match r with
              | '+' :: r2 => ("+", r2)
              | '-' :: r2 => ("-", r2)
              | _ => ("", r)
            let ds := r2.takeWhile Char.isDigit
            if ds = [] then ("", rest2)
            else (String.singleton e ++ es ++ String.mk ds, r2.dropWhile Char.isDigit)
          else ("", rest2)
      | [] => ("", rest2)
    some (sign ++ String.mk intDigits ++ fracPart ++ expPart, rest3)

mutual

/-- Recursive-descent JSON value parser (model of the grammar accepted by
`json.loads`), with explicit fuel for termination. -/
def jsonParseValue : Nat → List Char → Option (JsonValue × List Char)
  | 0, _ => none
  | Nat.succ fuel, cs =>
    match jsonSkipWs cs with
    | [] => none
    | 'n' :: 'u' :: 'l' :: 'l' :: rest => some (.null, rest)
    | 't' :: 'r' :: 'u' :: 'e' :: rest => some (.bool true, rest)
    | 'f' :: 'a' :: 'l' :: 's' :: 'e' :: rest => some (.bool false, rest)
    | '"' :: rest =>
        match jsonParseStringBody rest with
        | some (s, r) => some (.str s, r)
        | none => none
    | '[' :: rest =>
        (match jsonSkipWs rest with
         | ']' :: r2 => some (.arr [], r2)
         | _ => jsonParseElems fuel rest [])
    | '{' :: rest =>
        (match jsonSkipWs rest with
         | '}' :: r2 => some (.obj [], r2)
         | _ => jsonParseFields fuel rest [])
    | c :: rest =>
        if c = '-' ∨ c.isDigit then
          match jsonParseNumber (c :: rest) with
          | some (lex, r) => some (.num lex, r)
          | none => none
        else none

/-- Parse the comma-separated items of a non-empty JSON array. -/
def jsonParseElems : Nat → List Char → List JsonValue → Option (JsonValue × List Char)
  | 0, _, _ => none
  | Nat.succ fuel, cs, acc =>
    match jsonParseValue fuel cs with
    | none => none
    | some (v, rest) =>
        match jsonSkipWs rest with
        | ',' :: r2 => jsonParseElems fuel r2 (acc ++ [v])
        | ']' :: r2 => some (.arr (acc ++ [v]), r2)
        | _ => none

/-- Parse the comma-separated fields of a non-empty JSON object. -/
def jsonParseFields : Nat → List Char → List (String × JsonValue) →
    Option (JsonValue × List Char)
  | 0, _, _ => none
  | Nat.succ fuel, cs, acc =>
    match jsonSkipWs cs with
    | '"' :: rest =>
        (match jsonParseStringBody rest with
         | none => none
         | some (k, r1) =>
            match jsonSkipWs r1 with
            | ':' :: r2 =>
                (match jsonParseValue fuel r2 with
                 | none => none
                 | some (v, r3) =>
                    match jsonSkipWs r3 with
                    | ',' :: r4 => jsonParseFields fuel r4 (acc ++ [(k, v)])
                    | '}' :: r4 => some (.obj (acc ++ [(k, v)]), r4)
                    | _ => none)
            | _ => none)
    | _ => none

end

/-- Model of `json.loads`: parse a complete JSON document, rejecting trailing
garbage. -/
def jsonLoads (s : String) : Option JsonValue :=
  match jsonParseValue (2 * s.length + 4) s.toList with
  | some (v, rest) => if jsonSkipWs rest = [] then some v else none
  | none => none

/-! ## VFS projector (`src/core/vfs.py`, `DocReviewVFSAdapter`) -/

/-- Errors raised by the VFS adapter: `FileNotFoundError`, `PermissionError`
("read-only") and `ValueError` (invalid suggested-changes payload). -/
inductive VfsError where
  | notFound (path : String)
  | readOnly (path : String)
  | valueError (msg : String)
deriving Repr, DecidableEq

/-- Directory entry returned by `list_dir`: a name plus `"file"` or
`"directory"`. -/
structure DirEntry where
  name : String
  entryType : String
deriving Repr, DecidableEq

/-- The slice of `AgentState` that `DocReviewVFSAdapter` projects.  JSON-valued
fields (`doc_summary`, reviews, …) hold decoded JSON objects; `none` models a
field that is absent or `None`.  A chunk is modelled by its `"text"` value
(`chunks[title].get("text", "") or ""` in the source). -/
structure VfsState where
  raw_text : Option String
  doc_summary : Option JsonValue
  toc_review : Option JsonValue
  template_fitness_report : Option JsonValue
  section_strategy : Option JsonValue
  chunks : List (String × String)
  reviews : List (String × JsonValue)
  summary_report : Option JsonValue
  suggested_changes : Option JsonValue
  applied_change_ids : Option JsonValue
  failed_changes : Option JsonValue
  pre_apply_text : Option String

/-- Python's `str.strip()` (no argument): drop leading and trailing
whitespace. -/
def pyStrip (s : String) : String :=
  String.mk (((s.toList.dropWhile Char.isWhitespace).reverse.dropWhile
    Char.isWhitespace).reverse)

/-- Python's `s.startswith(pre)`. -/
def strStartsWith (s pre : String) : Bool :=
  pre.toList.isPrefixOf s.toList

/-- Python's `str.lower()` (ASCII). -/
def strLower (s : String) : String :=
  String.mk (s.toList.map Char.toLower)

/-- Python's `s[:n]` slice. -/
def strTake (s : String) (n : Nat) : String :=
  String.mk (s.toList.take n)

/-- Python's `s.split("/")` on the character list of `s`. -/
def splitSlash : List Char → List (List Char)
  | [] => [[]]
  | c :: rest =>
      let r := splitSlash rest
      if c = '/' then [] :: r
      else (c :: r.headD []) :: r.tail

/-- Model of `_slugify_section`: lower-case each alphanumeric character,
replace every other character by `'_'`, strip leading and trailing
underscores, and fall back to `"section"` when nothing remains.  Note that
consecutive underscores are NOT collapsed. -/
def slugify_section (title : String) : String :=
  let mapped := title.toList.map (fun ch => if ch.isAlphanum then ch.toLower else '_')
  let stripped := ((mapped.dropWhile (· = '_')).reverse.dropWhile (· = '_')).reverse
  if stripped.isEmpty then "section" else String.mk stripped

/-- Slugification as the specification's words describe it (for comparison
with `slugify_section`): lowercase, non-alphanumeric → `'_'`, CONSECUTIVE
UNDERSCORES COLLAPSED, leading/trailing underscores trimmed. -/
def slugifySectionSpec (title : String) : String :=
  let mapped := title.toList.map (fun ch => if ch.isAlphanum then ch.toLower else '_')
  let collapsed := mapped.foldr
    (fun c acc =>
      match acc with
      | '_' :: _ => if c = '_' then acc else c :: acc
      | _ => c :: acc) []
  let stripped := ((collapsed.dropWhile (· = '_')).reverse.dropWhile (· = '_')).reverse
  String.mk stripped

/-- Python's `str.rstrip()` (no argument): drop trailing whitespace. -/
def pyRstrip (s : String) : String :=
  String.mk ((s.toList.reverse.dropWhile Char.isWhitespace).reverse)

/-- Model of `DocReviewVFSAdapter._normalize`: empty path becomes `"/"`, a
leading slash is ensured, trailing whitespace is stripped. -/
def vfsNormalize (path : String) : String :=
  if path = "" then "/"
  else
    let p := if strStartsWith path "/" then path else "/" ++ path
    let p := pyRstrip p
    if p = "" then "/" else p

/-- Model of `_to_json`: serialize the data, with `None` replaced by the empty
JSON object. -/
def to_json (data : Option JsonValue) : String :=
  jsonDumps (data.getD (.obj []))

/-- Model of `_directory_entries`: one `"file"` entry per pair whose data is
not `None`. -/
def directoryEntries {α : Type} (files : List (String × Option α)) : List DirEntry :=
  files.filterMap
    (fun nd => match nd.2 with
      | none => none
      | some _ => some ⟨nd.1, "file"⟩)

/-- Insertion of a string into a sorted list (ascending). -/
def insertSorted (x : String) : List String → List String
  | [] => [x]
  | y :: ys => if x ≤ y then x :: y :: ys else y :: insertSorted x ys

/-- Python's `sorted` on a list of strings. -/
def sortStrings (l : List String) : List String :=
  l.foldr insertSorted []

/-- Model of `_list_section_chunks`: one entry per chunk title (sorted), named
by the title's slug plus `.md` (sections) or `.json` (reviews). -/
def listSectionChunks (st : VfsState) (kind : String) : List DirEntry :=
  if st.chunks.isEmpty then []
  else
    (sortStrings (st.chunks.map Prod.fst)).map
      (fun title =>
        let suffix := if kind = "sections" then ".md" else ".json"
        ⟨slugify_section title ++ suffix, "file"⟩)

/-- Model of `_root_entries`. -/
def rootEntries (st : VfsState) : List DirEntry :=
  let entries : List DirEntry := []
  let entries := entries ++
    (if (st.raw_text.getD "") ≠ "" then [⟨"original", "directory"⟩] else [])
  let entries := entries ++
    (if [st.doc_summary, st.toc_review, st.template_fitness_report,
         st.section_strategy].any (fun d => (d.map jsonTruthy).getD false)
     then [⟨"phase1", "directory"⟩] else [])
  let entries := entries ++
    (if !st.chunks.isEmpty ∨ !st.reviews.isEmpty ∨
        (st.summary_report.map jsonTruthy).getD false
     then [⟨"phase2", "directory"⟩] else [])
  entries ++ [⟨"changes", "directory"⟩, ⟨"versions", "directory"⟩]

/-- Model of `_resolve_section_from_path`: split the path on `"/"`, check the
suffix, and return the first chunk title whose slug matches the file name. -/
def resolveSectionFromPath (st : VfsState) (path suffix : String) : Option String :=
  let parts := splitSlash path.toList
  if parts.length < 4 then none
  else
    let filename := parts.getLastD []
    if !(suffix.toList.isSuffixOf filename) then none
    else
      let slug := String.mk (filename.take (filename.length - suffix.length))
      (st.chunks.find? (fun kv => slugify_section kv.1 == slug)).map Prod.fst

/-- Model of `DocReviewVFSAdapter.list_dir`. -/
def list_dir (st : VfsState) (path : String) : Except VfsError (List DirEntry) :=
  let p := vfsNormalize path
  if p = "/" then .ok (rootEntries st)
  else if p = "/original" then
    .ok (directoryEntries [("document.md", st.raw_text)])
  else if p = "/phase1" then
    .ok (directoryEntries
      [("doc_summary.json", st.doc_summary),
       ("toc_review.json", st.toc_review),
       ("template_fitness.json", st.template_fitness_report),
       ("section_strategy.json", st.section_strategy)])
  else if p = "/phase2" then
    .ok ((if !st.chunks.isEmpty then [⟨"sections", "directory"⟩] else []) ++
         (if !st.reviews.isEmpty then [⟨"reviews", "directory"⟩] else []) ++
         (if (st.summary_report.map jsonTruthy).getD false
          then [⟨"summary_report.json", "file"⟩] else []))
  else if p = "/phase2/sections" then .ok (listSectionChunks st "sections")
  else if p = "/phase2/reviews" then .ok (listSectionChunks st "reviews")
  else if p = "/changes" then
    .ok (directoryEntries
      [("suggested_changes.json", st.suggested_changes),
       ("applied_changes.json", st.applied_change_ids)])
  else if p = "/versions" then
    .ok (directoryEntries
      (("current.md", st.raw_text) ::
       (if (st.pre_apply_text.getD "") ≠ "" then [("previous.md", st.pre_apply_text)] else [])))
  else .error (.notFound p)

/-- Model of `DocReviewVFSAdapter.read_file`. -/
def read_file (st : VfsState) (path : String) : Except VfsError String :=
  let p := vfsNormalize path
  if p = "/original/document.md" then .ok (st.raw_text.getD "")
  else if p = "/phase1/doc_summary.json" then .ok (to_json st.doc_summary)
  else if p = "/phase1/toc_review.json" then .ok (to_json st.toc_review)
  else if p = "/phase1/template_fitness.json" then .ok (to_json st.template_fitness_report)
  else if p = "/phase1/section_strategy.json" then .ok (to_json st.section_strategy)
  else if p = "/phase2/summary_report.json" then .ok (to_json st.summary_report)
  else if strStartsWith p "/phase2/reviews/" then
    match resolveSectionFromPath st p ".json" with
    | none => .error (.notFound p)
    | some title => .ok (to_json (st.reviews.lookup title))
  else if strStartsWith p "/phase2/sections/" then
    match resolveSectionFromPath st p ".md" with
    | none => .error (.notFound p)
    | some title => .ok ((st.chunks.lookup title).getD "")
  else if p = "/changes/suggested_changes.json" then .ok (to_json st.suggested_changes)
  else if p = "/changes/applied_changes.json" then
    .ok (jsonDumps (.obj
      [("applied_change_ids", st.applied_change_ids.getD (.arr [])),
       ("failed_changes", st.failed_changes.getD (.arr []))]))
  else if p = "/versions/current.md" then .ok (st.raw_text.getD "")
  else if p = "/versions/previous.md" then
    match st.pre_apply_text with
    | some prev => if prev = "" then .error (.notFound p) else .ok prev
    | none => .error (.notFound p)
  else .error (.notFound p)

/-- Model of `DocReviewVFSAdapter.write_file`.  Only `/original/document.md`
and `/changes/suggested_changes.json` are writable; the latter requires the
data to decode as a JSON list; every other path raises `PermissionError`. -/
def write_file (st : VfsState) (path data : String) : Except VfsError VfsState :=
  let p := vfsNormalize path
  if p = "/original/document.md" then
    .ok { st with raw_text := some data }
  else if p = "/changes/suggested_changes.json" then
    match jsonLoads data with
    | none => .error (.valueError "suggested_changes must be valid JSON")
    | some (.arr items) => .ok { st with suggested_changes := some (.arr items) }
    | some _ => .error (.valueError "suggested_changes must be a list")
  else .error (.readOnly ("Path '" ++ p ++ "' is read-only"))

/-! ## Data model of the run state slice used by `src/core/agent.py` -/

/-- A suggested change (`SuggestedChange`).  Python reads every key with
`change.get(key, "")`, so all fields are total strings. -/
structure Change where
  id : String
  index : Nat
  section_title : String
  original_text : String
  suggested_text : String
  severity : String
  type : String
  status : String
deriving Repr, DecidableEq

/-- A change-selection plan (`ChangeSelectionPlan`). -/
structure ChangeSelectionPlan where
  apply_mode : String
  change_ids_to_apply : List String
  rationale : String
deriving Repr, DecidableEq

/-- An entry of `skipped_changes`: the skipped change plus a reason string. -/
structure SkippedChange where
  change : Change
  reason : String
deriving Repr, DecidableEq

/-- A registered VFS artifact (`VfsArtifact`). -/
structure VfsArtifact where
  path : String
  label : String
  last_updated : String
deriving Repr, DecidableEq

/-- The `changes` block of the run state (`ChangesData`). -/
structure ChangesData where
  suggested_changes : List Change
  applied_change_ids : List String
  failed_changes : List JsonValue
  change_selection_plan : Option ChangeSelectionPlan
  skipped_changes : List SkippedChange
  new_raw_text : Option String
  pre_apply_text : Option String

/-- Document metadata slice (`doc_meta`); the code reads the version with
`doc_meta.get("version", 1)`, so it is optional here. -/
structure DocMeta where
  version : Option Nat
deriving Repr, DecidableEq

/-- Structure slice (`structure`); the field is renamed because `structure`
is a Lean keyword. -/
structure StructureData where
  raw_text : String
deriving Repr, DecidableEq

/-- The slice of `phase1` read by `_summarize_node_result`. -/
structure DocSummary where
  summary : String
deriving Repr, DecidableEq

/-- The slice of `phase2.summary_report` read by `_summarize_node_result`. -/
structure SummaryReport where
  overall_posture : String
deriving Repr, DecidableEq

/-- The slice of the run state (`AgentState`) that the orchestrator, lock and
change engine read or write. -/
structure AgentState where
  run_id : String
  doc_id : String
  control : Option String
  last_node : Option String
  errors : List String
  locked_by : Option String
  lock_timestamp : Option String
  phase3_status : String
  doc_meta : DocMeta
  structureData : StructureData
  doc_summary : Option DocSummary
  summary_report : Option SummaryReport
  changes : ChangesData
  vfs_artifacts : List VfsArtifact

/-- Python truthiness of an optional string (`None` and `""` are falsy). -/
def pyTruthy (o : Option String) : Bool :=
  match o with
  | none => false
  | some s => s ≠ ""

/-- Python's `x or y` for an optional string `x` and a string default `y`. -/
def pyOrStr (x : Option String) (y : String) : String :=
  match x with
  | none => y
  | some s => if s = "" then y else s

/-! ## Advisory run lock (`_acquire_run_lock` / `_release_run_lock`) -/

/-- Model of `_acquire_run_lock`: raise `RuntimeError("Run locked by …")` when
a DIFFERENT truthy owner holds the lock; re-acquisition by the current owner
is a no-op; otherwise record the session and a timestamp. -/
def acquire_run_lock (st : AgentState) (session_id now : String) :
    Except String AgentState :=
  let owner := st.locked_by
  if pyTruthy owner ∧ owner ≠ some session_id then
    .error ("Run locked by " ++ owner.getD "")
  else if owner = some session_id then .ok st
  else .ok { st with locked_by := some session_id, lock_timestamp := some now }

/-- Model of `_release_run_lock`: clear both fields only when the caller is
the current owner. -/
def release_run_lock (st : AgentState) (session_id : String) : AgentState :=
  if st.locked_by = some session_id then
    { st with locked_by := none, lock_timestamp := none }
  else st

/-! ## Change selection (`_select_changes_for_application`) -/

/-- The reason string recorded for a skipped `missing_content` change. -/
def skipReason : String :=
  "missing_content requires manual insertion (no original_text anchor)"

/-- The filter applied to every suggestion: a `missing_content` change whose
`original_text` strips to empty cannot be anchored. -/
def isUnanchoredMissingContent (c : Change) : Bool :=
  c.type == "missing_content" && pyStrip c.original_text == ""

/-- The selection loop of `_select_changes_for_application`: split the
suggestions into applicable changes and skipped entries, preserving order. -/
def partitionApplicable : List Change → List Change × List SkippedChange
  | [] => ([], [])
  | c :: rest =>
      let (app, skip) := partitionApplicable rest
      if isUnanchoredMissingContent c then (app, ⟨c, skipReason⟩ :: skip)
      else (c :: app, skip)

/-- Python truthiness of an optional list (`None` and `[]` are falsy). -/
def truthyListOpt (o : Option (List String)) : Bool :=
  match o with
  | none => false
  | some l => !l.isEmpty

/-- Result of `_select_changes_for_application`: the returned selection, the
state (with `skipped_changes` recorded), and the `logger.warning` messages
emitted on the way. -/
structure SelectOutcome where
  selected : List Change
  state : AgentState
  warnings : List String

/-- Model of `_select_changes_for_application`.  Precedence: explicit
`change_ids`, then `severity_filter`, then the plan, then all applicable
changes.  The two plan warnings are reproduced verbatim; note that the source
computes `missing_ids` by testing membership of each plan id in
`set(plan_ids)` — the plan's own id set — so `missing_ids` is always empty. -/
def select_changes_for_application (st : AgentState)
    (change_ids : Option (List String)) (severity_filter : Option String)
    (plan : Option ChangeSelectionPlan) : SelectOutcome :=
  let suggestions := st.changes.suggested_changes
  let pa := partitionApplicable suggestions
  let applicable := pa.1
  let skipped := pa.2
  let st := { st with changes := { st.changes with skipped_changes := skipped } }
  let selected := applicable
  if truthyListOpt change_ids then
    ⟨applicable.filter (fun c => (change_ids.getD []).contains c.id), st, []⟩
  else if pyTruthy severity_filter then
    let severity := strLower (severity_filter.getD "")
    ⟨applicable.filter (fun c => c.severity == severity), st, []⟩
  else
    match plan with
    | none => ⟨selected, st, []⟩
    | some p =>
        if p.apply_mode == "all" then ⟨applicable, st, []⟩
        else if !p.change_ids_to_apply.isEmpty then
          let plan_ids := p.change_ids_to_apply
          let selected_ids := plan_ids
          let sel := applicable.filter (fun c => selected_ids.contains c.id)
          let missing_ids := plan_ids.filter (fun cid => !selected_ids.contains cid)
          ⟨sel, st,
            if !missing_ids.isEmpty then
              ["Change selection plan referenced unavailable IDs: " ++
                String.intercalate ", " missing_ids]
            else []⟩
        else
          ⟨selected, st, ["Change selection plan did not specify any IDs to apply."]⟩

/-! ## Change application (`_apply_changes_core` and VFS artifact registry) -/

/-- Result of the injected `apply_changes_deterministic` capability. -/
structure ToolResult where
  applied_change_ids : List String
  failed_changes : List JsonValue
  new_raw_markdown : String

/-- Model of `_register_vfs_artifact`: registering an already-registered path
is a no-op; otherwise the artifact is appended. -/
def register_vfs_artifact (st : AgentState) (a : VfsArtifact) : AgentState :=
  if (st.vfs_artifacts.map VfsArtifact.path).contains a.path then st
  else { st with vfs_artifacts := st.vfs_artifacts ++ [a] }

/-- Model of `_sync_vfs_artifacts` (the `vfs_file_updated` event emission is
fire-and-forget and not modelled): register each `(path, label)` entry with
the current timestamp. -/
def sync_vfs_artifacts (st : AgentState) (entries : List (String × String))
    (now : String) : AgentState :=
  entries.foldl (fun s e => register_vfs_artifact s ⟨e.1, e.2, now⟩) st

/-- Model of `_apply_changes_core`, with the deterministic-apply capability's
result passed in as `tool`.  With at least one applied id the document text is
replaced, the version incremented, the pre-apply snapshot retained and two
artifact paths registered; with zero applied ids the phase fails. -/
def apply_changes_core (tool : ToolResult) (selected : List Change)
    (original_text : Option String) (now : String) (st : AgentState) : AgentState :=
  if selected.isEmpty then { st with phase3_status := "failed" }
  else
    let snapshot := pyOrStr original_text st.structureData.raw_text
    let st := { st with changes := { st.changes with
        applied_change_ids := tool.applied_change_ids,
        failed_changes := tool.failed_changes,
        new_raw_text := some tool.new_raw_markdown } }
    if !tool.applied_change_ids.isEmpty then
      let newVersion := st.doc_meta.version.getD 1 + 1
      let st := { st with
        structureData := { raw_text := tool.new_raw_markdown },
        doc_meta := { version := some newVersion },
        phase3_status := "success",
        changes := { st.changes with pre_apply_text := some snapshot } }
      sync_vfs_artifacts st
        [("/versions/v" ++ toString newVersion ++ "_document.md", "Improved Document"),
         ("/changes/applied_changes.json", "Applied Changes")] now
    else { st with phase3_status := "failed" }

/-! ## Orchestrator (`_run_node`, `_advance_control`, `orchestrate`) -/

/-- The fixed phase-transition table `NODE_TRANSITIONS`. -/
def NODE_TRANSITIONS (control : String) : Option String :=
  if control = "phase0_ingestion" then some "phase1_toc_review"
  else if control = "phase1_toc_review" then some "phase2_holistic_checks"
  else if control = "phase2_holistic_checks" then some "phase2_synthesis"
  else if control = "phase2_synthesis" then some "completed"
  else none

/-- The node-kind table `NODE_KINDS` with its `"orchestrator"` default. -/
def nodeKind (node_id : String) : String :=
  if node_id = "phase0_ingestion" then "tool"
  else if node_id = "phase1_toc_review" then "llm"
  else if node_id = "phase2_holistic_checks" then "llm"
  else if node_id = "phase2_synthesis" then "llm"
  else "orchestrator"

/-- The node-label table `NODE_LABELS`, defaulting to the node id. -/
def nodeLabel (node_id : String) : String :=
  if node_id = "phase0_ingestion" then "Phase 0 – Ingestion"
  else if node_id = "phase1_toc_review" then "Phase 1 – TOC Review"
  else if node_id = "phase2_holistic_checks" then "Phase 2 – Holistic Checks"
  else if node_id = "phase2_synthesis" then "Phase 2 – Synthesis Summary"
  else node_id

/-- Model of `_summarize_node_result`. -/
def summarize_node_result (node_id : String) (st : AgentState) : String :=
  if node_id = "phase1_doc_summary" ∧ st.doc_summary.isSome then
    strTake ((st.doc_summary.map DocSummary.summary).getD "") 140
  else if node_id = "phase2_summary" ∧ st.summary_report.isSome then
    (st.summary_report.map SummaryReport.overall_posture).getD ""
  else if node_id = "phase2_section_reviews" then
    toString st.changes.suggested_changes.length ++ " issues logged"
  else if node_id = "apply_changes" then
    "Applied " ++ toString st.changes.applied_change_ids.length ++ " changes (" ++
      toString st.changes.failed_changes.length ++ " failed)"
  else ""

/-- An event emitted by the run wrapper (`node_started` / `node_completed`;
the wall-clock timestamp and `duration_ms` carry no information a theorem can
use and are not modelled). -/
structure NodeEvent where
  etype : String
  node : String
  node_kind : String
  label : String
  status : Option String
  error : Option String
  summary : Option String
deriving Repr, DecidableEq

/-- Model of `_run_node`.  On success the handler's result gets `last_node`
set and a `node_completed(success)` event; on an exception the error string is
appended to `state.errors`, a `node_completed(failed)` event carries the
message, and the exception is re-raised — carrying the mutated state, since
the Python caller shares the state object with the wrapper. -/
def run_node (node_id : String) (f : AgentState → Except String AgentState)
    (st : AgentState) : List NodeEvent × Except (String × AgentState) AgentState :=
  let started : NodeEvent :=
    ⟨"node_started", node_id, nodeKind node_id, nodeLabel node_id, none, none, none⟩
  match f st with
  | .ok st1 =>
      let completed : NodeEvent :=
        ⟨"node_completed", node_id, nodeKind node_id, nodeLabel node_id,
          some "success", none, some (summarize_node_result node_id st1)⟩
      ([started, completed], .ok { st1 with last_node := some node_id })
  | .error msg =>
      let stErr := { st with errors := st.errors ++ [node_id ++ " failed: " ++ msg] }
      let completed : NodeEvent :=
        ⟨"node_completed", node_id, nodeKind node_id, nodeLabel node_id,
          some "failed", some msg, some (summarize_node_result node_id stErr)⟩
      ([started, completed], .error (msg, stErr))

/-- Model of `_advance_control`: if the node already changed `control`, leave
it; otherwise advance via `NODE_TRANSITIONS`, defaulting to `"completed"`. -/
def advance_control (current_control : String) (st : AgentState) : AgentState :=
  if st.control ≠ some current_control then st
  else
    match NODE_TRANSITIONS current_control with
    | some next => { st with control := some next }
    | none => { st with control := some "completed" }

/-- The default stop set `ORCHESTRATOR_WAIT_STATES`. -/
def ORCHESTRATOR_WAIT_STATES : List String :=
  ["completed", "failed"]

/-- Outcome of one iteration of the `orchestrate` loop. -/
inductive OrchStep where
  | halted (st : AgentState)
  | stepped (events : List NodeEvent) (st : AgentState)
  | raised (events : List NodeEvent) (msg : String) (st : AgentState)

/-- One iteration of the `orchestrate` loop: stop on a missing, empty or
stop-listed control or an unregistered node (fail-soft); otherwise run the
node through the wrapper and advance control. -/
def orchestrate_step (registry : String → Option (AgentState → Except String AgentState))
    (stops : List String) (st : AgentState) : OrchStep :=
  match st.control with
  | none => .halted st
  | some c =>
      if c = "" ∨ stops.contains c then .halted st
      else
        match registry c with
        | none => .halted st
        | some f =>
            match run_node c f st with
            | (evs, .ok st1) => .stepped evs (advance_control c st1)
            | (evs, .error e) => .raised evs e.1 e.2

/-- Model of `orchestrate`, iterating `orchestrate_step` with explicit fuel
(the Python loop runs unboundedly; every run below uses enough fuel to reach a
stop). -/
def orchestrate (fuel : Nat)
    (registry : String → Option (AgentState → Except String AgentState))
    (stops : List String) (st : AgentState) :
    List NodeEvent × Except (String × AgentState) AgentState :=
  match fuel with
  | 0 => ([], .ok st)
  | Nat.succ fuel =>
      match orchestrate_step registry stops st with
      | .halted st1 => ([], .ok st1)
      | .raised evs msg st1 => (evs, .error (msg, st1))
      | .stepped evs st1 =>
          let rest := orchestrate fuel registry stops st1
          (evs ++ rest.1, rest.2)

/-! ## Assistant router (`src/core/riskgpt_nodes.py`, `src/core/riskgpt_agent.py`) -/

/-- A document block as it appears in `block_metadata`. -/
structure RgBlock where
  id : String
  content : String
  type : String
deriving Repr, DecidableEq

/-- One conversation message (role, content). -/
structure RgMessage where
  role : String
  content : String
deriving Repr, DecidableEq

/-- One entry of the router's `logs` list (the wall-clock timestamp is not
modelled). -/
structure RgLog where
  node : String
  msg : String
  control : String
deriving Repr, DecidableEq

/-- A template improvement from the document state. -/
structure RgImprovement where
  block_id : String
  reasoning : String
  changes_made : List String
deriving Repr, DecidableEq

/-- A suggestion-status summary entry built by `context_loader_node`. -/
structure RgSuggestionStatus where
  block_id : String
  status : String
  reasoning : String
  changes_made : List String
deriving Repr, DecidableEq

/-- The `final_output` payload selected by `end_node`. -/
structure RgFinalOutput where
  analysis : String
  suggestions : List JsonValue

/-- The router's per-request state (`RiskGPTAgentState`).  Keys the Python
dict may lack are modelled with their `state.get(...)` defaults (`""`, `[]`),
and `final_output` with `none`.  The `metrics` timings are wall-clock and not
modelled. -/
structure RgState where
  file_id : String
  user_prompt : String
  selected_block_ids : List String
  conversation_history : List RgMessage
  control : String
  last_node : String
  logs : List RgLog
  node_reasoning : String
  full_markdown : String
  block_metadata : List RgBlock
  selected_blocks : List RgBlock
  template_name : Option String
  template_content : Option String
  all_suggestions : List RgSuggestionStatus
  intent : String
  intent_reasoning : String
  requires_block_context : Bool
  requires_doc_search : Bool
  block_analysis : String
  block_suggestions : List JsonValue
  chat_response : String
  search_response : String
  final_output : Option RgFinalOutput

/-- The document state snapshot handed to `context_loader_node`. -/
structure RgDocumentState where
  raw_markdown : String
  block_metadata : List RgBlock
  template_name : Option String
  template_improvements : List RgImprovement
  accepted_suggestions : List String
  rejected_suggestions : List String

/-- The decoded JSON reply of the intent-classifier LLM call; each field is
read with a `.get` default in the source, hence `Option` here.  The float
`confidence` field is display-only and not modelled. -/
structure RgClassifierReply where
  intent : Option String
  requires_block_context : Option Bool
  requires_doc_search : Option Bool

/-- The injected LLM capability for the router: one entry per LLM-backed
node.  `available` models `is_llm_available()`; a `.error` result models the
`client.invoke`/JSON-parse call raising inside the node's `try`. -/
structure RgLLM where
  available : Bool
  classify : RgState → Except String RgClassifierReply
  improve : RgState → Except String (String × List JsonValue)
  chat : RgState → Except String String
  search : RgState → Except String String

/-- Model of `_make_node_result`: apply the node's `state_updates`, then set
`last_node`, `control` and `node_reasoning` and append a log entry (the
Python version returns a partial dict that the run loop merges; the merged
result is identical). -/
def make_node_result (st : RgState) (node control reasoning : String)
    (updates : RgState → RgState) : RgState :=
  let st := updates st
  { st with
    last_node := node,
    control := control,
    node_reasoning := reasoning,
    logs := st.logs ++ [⟨node, reasoning, control⟩] }

/-- Model of `context_loader_node` (pure, no LLM): filter the selected blocks
out of the block metadata and build a suggestion-status summary. -/
def context_loader_node (doc : RgDocumentState) (template_content : Option String)
    (st : RgState) : RgState :=
  let full_markdown := doc.raw_markdown
  let block_metadata := doc.block_metadata
  let selected_blocks :=
    if !st.selected_block_ids.isEmpty ∧ !block_metadata.isEmpty then
      block_metadata.filter (fun b => st.selected_block_ids.contains b.id)
    else []
  let all_suggestions := doc.template_improvements.map (fun imp =>
    let status :=
      if doc.accepted_suggestions.contains imp.block_id then "accepted"
      else if doc.rejected_suggestions.contains imp.block_id then "rejected"
      else "pending"
    (⟨imp.block_id, status, imp.reasoning, imp.changes_made⟩ : RgSuggestionStatus))
  make_node_result st "context_loader" "intent_classifier"
    ("Loaded context: " ++ toString block_metadata.length ++ " blocks, " ++
      toString selected_blocks.length ++ " selected, " ++
      toString all_suggestions.length ++ " suggestions")
    (fun s => { s with
      full_markdown := full_markdown,
      block_metadata := block_metadata,
      selected_blocks := selected_blocks,
      template_name := doc.template_name,
      template_content := template_content,
      all_suggestions := all_suggestions })

/-- Model of `intent_classifier_node`.  An unavailable LLM raises (outside the
node's `try`); a failed classify call falls back to routing by block-selection
presence alone; a successful reply routes `improve_blocks`-with-selection to
`block_improver`, `search_document`-or-`requires_doc_search` to
`doc_searcher`, and everything else to `chat_responder`. -/
def intent_classifier_node (llm_available : Bool)
    (reply : Except String RgClassifierReply) (st : RgState) :
    Except String RgState :=
  if !llm_available then .error "LLM not configured"
  else
    let has_selected_blocks := !st.selected_blocks.isEmpty
    match reply with
    | .ok r =>
        let intent := r.intent.getD "general_question"
        let requires_block_context := r.requires_block_context.getD has_selected_blocks
        let requires_doc_search := r.requires_doc_search.getD false
        let next_control :=
          if intent = "improve_blocks" ∧ has_selected_blocks then "block_improver"
          else if intent = "search_document" ∨ requires_doc_search then "doc_searcher"
          else "chat_responder"
        .ok (make_node_result st "intent_classifier" next_control
          ("Intent: " ++ intent)
          (fun s => { s with
            intent := intent,
            intent_reasoning := "",
            requires_block_context := requires_block_context,
            requires_doc_search := requires_doc_search }))
    | .error e =>
        let next_control := if has_selected_blocks then "block_improver" else "chat_responder"
        .ok (make_node_result st "intent_classifier" next_control
          ("Fallback routing (error: " ++ e ++ ")")
          (fun s => { s with
            intent := if has_selected_blocks then "improve_blocks" else "general_question",
            intent_reasoning := "Fallback due to classification error",
            requires_block_context := has_selected_blocks,
            requires_doc_search := false }))

/-- Model of `block_improver_node`: on success store the analysis and
suggestions, on an invoke error store an error analysis and no suggestions;
either way `control` becomes `end`. -/
def block_improver_node (llm_available : Bool)
    (reply : Except String (String × List JsonValue)) (st : RgState) :
    Except String RgState :=
  if !llm_available then .error "LLM not configured"
  else
    match reply with
    | .ok (analysis, suggestions) =>
        .ok (make_node_result st "block_improver" "end"
          ("Generated " ++ toString suggestions.length ++ " block improvements")
          (fun s => { s with block_analysis := analysis, block_suggestions := suggestions }))
    | .error e =>
        .ok (make_node_result st "block_improver" "end"
          ("Error generating improvements: " ++ e)
          (fun s => { s with block_analysis := "Error: " ++ e, block_suggestions := [] }))

/-- Model of `chat_responder_node`. -/
def chat_responder_node (llm_available : Bool) (reply : Except String String)
    (st : RgState) : Except String RgState :=
  if !llm_available then .error "LLM not configured"
  else
    match reply with
    | .ok response =>
        .ok (make_node_result st "chat_responder" "end"
          "Generated conversational response"
          (fun s => { s with chat_response := response }))
    | .error e =>
        .ok (make_node_result st "chat_responder" "end"
          ("Error generating response: " ++ e)
          (fun s => { s with chat_response := "Sorry, I encountered an error: " ++ e }))

/-- Model of `doc_searcher_node`. -/
def doc_searcher_node (llm_available : Bool) (reply : Except String String)
    (st : RgState) : Except String RgState :=
  if !llm_available then .error "LLM not configured"
  else
    match reply with
    | .ok response =>
        .ok (make_node_result st "doc_searcher" "end"
          "Searched document and generated response"
          (fun s => { s with search_response := response }))
    | .error e =>
        .ok (make_node_result st "doc_searcher" "end"
          ("Error searching document: " ++ e)
          (fun s => { s with search_response := "Sorry, I encountered an error while searching: " ++ e }))

/-- Helper for substring containment: does `sub` occur in `l`? -/
def listContainsSub (sub : List Char) : List Char → Bool
  | [] => sub.isEmpty
  | c :: rest => sub.isPrefixOf (c :: rest) || listContainsSub sub rest

/-- Python's `sub in s` substring containment. -/
def strContains (s sub : String) : Bool :=
  listContainsSub sub.toList s.toList

/-- Model of `end_node`: select the final output shape from `last_node` by
substring match; `chat_responder` and `doc_searcher` outputs carry an empty
suggestion list. -/
def end_node (st : RgState) : RgState :=
  let final_output : RgFinalOutput :=
    if strContains st.last_node "block_improver" then
      ⟨st.block_analysis, st.block_suggestions⟩
    else if strContains st.last_node "chat_responder" then
      ⟨st.chat_response, []⟩
    else if strContains st.last_node "doc_searcher" then
      ⟨st.search_response, []⟩
    else ⟨"No response generated", []⟩
  make_node_result st "end" "end" "RiskGPT workflow completed"
    (fun s => { s with final_output := some final_output })

/-- The result dict of `RiskGPTAgent.run` (metrics are wall-clock and not
modelled; `intent_confidence` is a float and not modelled). -/
structure RgOutput where
  analysis : String
  suggestions : List JsonValue
  logs : List RgLog
  intent : String
  error : Option String

/-- The router loop of `RiskGPTAgent.run`: at most `fuel` (`max_steps = 10`)
node executions, stopping at `control = "end"` or an unknown control
(logged-and-break in the source).  An exception carries the state as mutated
so far, as the Python `except` block still sees it. -/
def rg_run_loop (llm : RgLLM) (doc : RgDocumentState) (tc : Option String) :
    Nat → RgState → Except (String × RgState) RgState
  | 0, st => .ok st
  | Nat.succ fuel, st =>
      if st.control = "end" then .ok st
      else if st.control = "context_loader" then
        rg_run_loop llm doc tc fuel (context_loader_node doc tc st)
      else if st.control = "intent_classifier" then
        match intent_classifier_node llm.available (llm.classify st) st with
        | .error e => .error (e, st)
        | .ok st1 => rg_run_loop llm doc tc fuel st1
      else if st.control = "block_improver" then
        match block_improver_node llm.available (llm.improve st) st with
        | .error e => .error (e, st)
        | .ok st1 => rg_run_loop llm doc tc fuel st1
      else if st.control = "chat_responder" then
        match chat_responder_node llm.available (llm.chat st) st with
        | .error e => .error (e, st)
        | .ok st1 => rg_run_loop llm doc tc fuel st1
      else if st.control = "doc_searcher" then
        match doc_searcher_node llm.available (llm.search st) st with
        | .error e => .error (e, st)
        | .ok st1 => rg_run_loop llm doc tc fuel st1
      else .ok st

/-- The initial router state built by `RiskGPTAgent.run`. -/
def rg_init_state (file_id user_prompt : String) (selected_block_ids : List String)
    (conversation_history : List RgMessage) : RgState :=
  { file_id := file_id
    user_prompt := user_prompt
    selected_block_ids := selected_block_ids
    conversation_history := conversation_history
    control := "context_loader"
    last_node := ""
    logs := []
    node_reasoning := ""
    full_markdown := ""
    block_metadata := []
    selected_blocks := []
    template_name := none
    template_content := none
    all_suggestions := []
    intent := ""
    intent_reasoning := ""
    requires_block_context := false
    requires_doc_search := false
    block_analysis := ""
    block_suggestions := []
    chat_response := ""
    search_response := ""
    final_output := none }

/-- Model of `RiskGPTAgent.run`: run the loop with `max_steps = 10`, always
run `end_node` on the surviving state, and shape the result; a propagated
exception is converted to an error payload with empty suggestions. -/
def rg_run (llm : RgLLM) (file_id user_prompt : String)
    (selected_block_ids : List String) (conversation_history : List RgMessage)
    (doc : RgDocumentState) (tc : Option String) : RgOutput :=
  let st0 := rg_init_state file_id user_prompt selected_block_ids conversation_history
  match rg_run_loop llm doc tc 10 st0 with
  | .error (e, st) =>
      { analysis := "Error processing request: " ++ e
        suggestions := []
        logs := st.logs
        intent := st.intent
        error := some e }
  | .ok st1 =>
      let st2 := end_node st1
      let fo := st2.final_output.getD ⟨"No response generated", []⟩
      { analysis := fo.analysis
        suggestions := fo.suggestions
        logs := st2.logs
        intent := st2.intent
        error := none }

/-! ## Concrete states and capabilities used by witnesses and counterexamples -/

/-- A fresh, empty VFS projection state. -/
def vfsState0 : VfsState :=
  ⟨none, none, none, none, none, [], [], none, none, none, none, none⟩

/-- A VFS state holding one phase-2 chunk whose title contains two consecutive
spaces. -/
def vfsC7 : VfsState :=
  { vfsState0 with chunks := [("a  b", "SECTION TEXT")] }

/-- An empty `changes` block. -/
def changes0 : ChangesData :=
  ⟨[], [], [], none, [], none, none⟩

/-- A fresh agent run state. -/
def agentState0 : AgentState :=
  { run_id := "run-1", doc_id := "doc-1", control := none, last_node := none,
    errors := [], locked_by := none, lock_timestamp := none,
    phase3_status := "pending", doc_meta := ⟨some 1⟩,
    structureData := ⟨""⟩, doc_summary := none, summary_report := none,
    changes := changes0, vfs_artifacts := [] }

/-- An ordinary applicable grammar change. -/
def chgGrammar : Change :=
  ⟨"c1", 0, "Intro", "old text", "new text", "low", "grammar", "pending"⟩

/-- A run state holding one applicable suggested change. -/
def stSel : AgentState :=
  { agentState0 with changes := { changes0 with suggested_changes := [chgGrammar] } }

/-- A plan whose id list is empty (and whose mode is not `all`). -/
def planEmptyIds : ChangeSelectionPlan :=
  ⟨"by_ids", [], "apply the listed changes"⟩

/-- A plan referencing an id that no suggested change carries. -/
def planGhostIds : ChangeSelectionPlan :=
  ⟨"by_ids", ["ghost"], "apply the listed changes"⟩

/-- A run state on which a change application already happened once, so that
`/changes/applied_changes.json` is already registered. -/
def stApplied : AgentState :=
  { agentState0 with
    structureData := ⟨"old"⟩,
    vfs_artifacts := [⟨"/changes/applied_changes.json", "Applied Changes", "t0"⟩] }

/-- A deterministic-apply result reporting one applied change. -/
def toolOne : ToolResult :=
  ⟨["c1"], [], "new"⟩

/-- A registry mapping `phase0_ingestion` to a no-op success handler that does
not change `control` (the spec's orchestrator test fixture). -/
def noopRegistry : String → Option (AgentState → Except String AgentState) :=
  fun c => if c = "phase0_ingestion" then some (fun s => .ok s) else none

/-- The fresh run state positioned at `phase0_ingestion`. -/
def agentStatePhase0 : AgentState :=
  { agentState0 with control := some "phase0_ingestion" }

/-- A minimal document-state snapshot for the assistant router. -/
def rgDoc0 : RgDocumentState :=
  ⟨"# Doc", [], none, [], [], []⟩

/-- An available LLM whose intent classifier always fails and whose responders
succeed. -/
def rgLLMFailingClassifier : RgLLM :=
  ⟨true, fun _ => .error "boom", fun _ => .ok ("", []),
   fun _ => .ok "Hello.", fun _ => .ok "Found."⟩


/-- A `missing_content` change whose anchor text strips to empty. -/
def chgMissing : Change :=
  ⟨"c2", 1, "Background", "  ", "Add a paragraph.", "high", "missing_content", "pending"⟩

/-- A run state holding one applicable change and one unanchored
`missing_content` change. -/
def stC2 : AgentState :=
  { agentState0 with
    changes := { changes0 with suggested_changes := [chgGrammar, chgMissing] } }

/-- A VFS state with one section chunk and its review. -/
def vfsC7Good : VfsState :=
  { vfsState0 with
    chunks := [("Hello, World!", "BODY")],
    reviews := [("Hello, World!", JsonValue.str "fine")] }

/-- A document block with a known id. -/
def rgBlock1 : RgBlock :=
  ⟨"b1", "Some text", "paragraph"⟩

/-- A document-state snapshot whose metadata contains `rgBlock1`. -/
def rgDocBlocks : RgDocumentState :=
  ⟨"# Doc", [rgBlock1], none, [], [], []⟩

/-! ## Theorems -/

/-- C6 counterexample: the claim says `writeFile` succeeds for
`/changes/suggested_changes.json` for every data string, but writing the
non-JSON string `"x"` there raises a `ValueError`, not success. -/
theorem C6_counterexample :
    write_file vfsState0 "/changes/suggested_changes.json" "x" =
      .error (.valueError "suggested_changes must be valid JSON") := rfl

/-- C6 (amended): every path other than the two writable ones fails with a
`ReadOnly` error; `writeFile("/original/document.md", x)` always succeeds and
an immediate `readFile` returns `x`; and
`writeFile("/changes/suggested_changes.json", x)` succeeds exactly when `x`
decodes as a JSON list, raising a `ValueError` otherwise. -/
theorem C6_amended (st : VfsState) (path data : String) :
    ((vfsNormalize path ≠ "/original/document.md" ∧
      vfsNormalize path ≠ "/changes/suggested_changes.json") →
        write_file st path data =
          .error (.readOnly ("Path '" ++ vfsNormalize path ++ "' is read-only"))) ∧
    write_file st "/original/document.md" data = .ok { st with raw_text := some data } ∧
    read_file { st with raw_text := some data } "/original/document.md" = .ok data ∧
    write_file st "/changes/suggested_changes.json" data =
      (match jsonLoads data with
       | none => .error (.valueError "suggested_changes must be valid JSON")
       | some (.arr items) => .ok { st with suggested_changes := some (.arr items) }
       | some _ => .error (.valueError "suggested_changes must be a list")) := by
  refine ⟨?_, rfl, rfl, rfl⟩
  rintro ⟨h1, h2⟩
  simp only [write_file]
  rw [if_neg h1, if_neg h2]

/-- C6 witness: writing to `/phase1/doc_summary.json` fails with `ReadOnly`. -/
theorem C6_amended_witness :
    write_file vfsState0 "/phase1/doc_summary.json" "x" =
      .error (.readOnly ("Path '" ++ vfsNormalize "/phase1/doc_summary.json" ++
        "' is read-only")) :=
  (C6_amended vfsState0 "/phase1/doc_summary.json" "x").1 ⟨by decide, by decide⟩

/-- C10: every JSON-backed path whose backing field is absent reads as the
serialized empty object `"\x7b\x7d"` rather than failing, while being omitted
from its parent directory listing; `/versions/previous.md` without a truthy
pre-apply snapshot raises `NotFound`, as does a path outside the namespace. -/
theorem C10 (st : VfsState) :
    (st.doc_summary = none →
      read_file st "/phase1/doc_summary.json" = .ok "\x7b\x7d" ∧
      ∀ l, list_dir st "/phase1" = .ok l →
        (⟨"doc_summary.json", "file"⟩ : DirEntry) ∉ l) ∧
    (st.toc_review = none →
      read_file st "/phase1/toc_review.json" = .ok "\x7b\x7d" ∧
      ∀ l, list_dir st "/phase1" = .ok l →
        (⟨"toc_review.json", "file"⟩ : DirEntry) ∉ l) ∧
    (st.template_fitness_report = none →
      read_file st "/phase1/template_fitness.json" = .ok "\x7b\x7d" ∧
      ∀ l, list_dir st "/phase1" = .ok l →
        (⟨"template_fitness.json", "file"⟩ : DirEntry) ∉ l) ∧
    (st.section_strategy = none →
      read_file st "/phase1/section_strategy.json" = .ok "\x7b\x7d" ∧
      ∀ l, list_dir st "/phase1" = .ok l →
        (⟨"section_strategy.json", "file"⟩ : DirEntry) ∉ l) ∧
    (st.summary_report = none →
      read_file st "/phase2/summary_report.json" = .ok "\x7b\x7d" ∧
      ∀ l, list_dir st "/phase2" = .ok l →
        (⟨"summary_report.json", "file"⟩ : DirEntry) ∉ l) ∧
    (st.suggested_changes = none →
      read_file st "/changes/suggested_changes.json" = .ok "\x7b\x7d" ∧
      ∀ l, list_dir st "/changes" = .ok l →
        (⟨"suggested_changes.json", "file"⟩ : DirEntry) ∉ l) ∧
    (pyTruthy st.pre_apply_text = false →
      read_file st "/versions/previous.md" = .error (.notFound "/versions/previous.md")) ∧
    read_file st "/outside/namespace.txt" = .error (.notFound "/outside/namespace.txt") := by
  obtain ⟨rt, ds, tr, tf, ss, ch, rv, sr, sc, ai, fc, pa⟩ := st
  refine ⟨?_, ?_, ?_, ?_, ?_, ?_, ?_, rfl⟩
  · rintro rfl
    refine ⟨rfl, ?_⟩
    intro l hl
    rw [← Except.ok.inj hl]
    cases tr <;> cases tf <;> cases ss <;> simp [list_dir, directoryEntries, vfsNormalize]
  · rintro rfl
    refine ⟨rfl, ?_⟩
    intro l hl
    rw [← Except.ok.inj hl]
    cases ds <;> cases tf <;> cases ss <;> simp [list_dir, directoryEntries, vfsNormalize]
  · rintro rfl
    refine ⟨rfl, ?_⟩
    intro l hl
    rw [← Except.ok.inj hl]
    cases ds <;> cases tr <;> cases ss <;> simp [list_dir, directoryEntries, vfsNormalize]
  · rintro rfl
    refine ⟨rfl, ?_⟩
    intro l hl
    rw [← Except.ok.inj hl]
    cases ds <;> cases tr <;> cases tf <;> simp [list_dir, directoryEntries, vfsNormalize]
  · rintro rfl
    refine ⟨rfl, ?_⟩
    intro l hl
    rw [← Except.ok.inj hl]
    by_cases hch : ch.isEmpty <;> by_cases hrv : rv.isEmpty <;>
      simp [list_dir, vfsNormalize, hch, hrv]
  · rintro rfl
    refine ⟨rfl, ?_⟩
    intro l hl
    rw [← Except.ok.inj hl]
    cases ai <;> simp [list_dir, directoryEntries, vfsNormalize]
  · intro hpre
    cases pa with
    | none => rfl
    | some s =>
        simp only [pyTruthy, decide_eq_false_iff_not, ne_eq, not_not] at hpre
        subst hpre
        rfl

/-- C10 witness: on the empty state, `/phase1/doc_summary.json` reads as the
empty JSON object and `/versions/previous.md` is `NotFound`. -/
theorem C10_witness :
    read_file vfsState0 "/phase1/doc_summary.json" = .ok "\x7b\x7d" ∧
    read_file vfsState0 "/versions/previous.md" =
      .error (.notFound "/versions/previous.md") :=
  ⟨((C10 vfsState0).1 rfl).1, (C10 vfsState0).2.2.2.2.2.2.1 rfl⟩

/-- C5 counterexample: for the distinct session ids `""` and `"B"`, acquiring
with `""` succeeds but the subsequent acquire by `"B"` does NOT raise a
`LockConflict` — the empty owner string is falsy, so the conflict test is
skipped and `"B"` silently takes the lock. -/
theorem C5_counterexample :
    ("" : String) ≠ "B" ∧
    acquire_run_lock agentState0 "" "t0" =
      .ok { agentState0 with locked_by := some "", lock_timestamp := some "t0" } ∧
    acquire_run_lock
      { agentState0 with locked_by := some "", lock_timestamp := some "t0" } "B" "t1" =
      .ok { agentState0 with locked_by := some "B", lock_timestamp := some "t1" } :=
  ⟨by decide, rfl, rfl⟩

/-- C5 (amended): for every pair of distinct session ids with `A` non-empty,
once `acquireRunLock(state, A)` has succeeded: an acquire by `B` raises the
lock conflict and the owner is `A`; re-acquiring with `A` is a no-op; a
release by `B` is a no-op; and a release by `A` clears `locked_by` and
`lock_timestamp`. -/
theorem C5_amended (st : AgentState) (A B now now2 : String)
    (hA : A ≠ "") (hAB : A ≠ B) (st1 : AgentState)
    (hacq : acquire_run_lock st A now = .ok st1) :
    st1.locked_by = some A ∧
    acquire_run_lock st1 B now2 = .error ("Run locked by " ++ A) ∧
    acquire_run_lock st1 A now2 = .ok st1 ∧
    release_run_lock st1 B = st1 ∧
    (release_run_lock st1 A).locked_by = none ∧
    (release_run_lock st1 A).lock_timestamp = none := by
  have howner : st1.locked_by = some A := by
    unfold acquire_run_lock at hacq
    by_cases h1 : pyTruthy st.locked_by ∧ st.locked_by ≠ some A
    · rw [if_pos h1] at hacq
      exact absurd hacq (by simp)
    · rw [if_neg h1] at hacq
      by_cases h2 : st.locked_by = some A
      · rw [if_pos h2] at hacq
        cases hacq
        exact h2
      · rw [if_neg h2] at hacq
        cases hacq
        rfl
  refine ⟨howner, ?_, ?_, ?_, ?_, ?_⟩
  · unfold acquire_run_lock
    rw [howner]
    rw [if_pos ⟨by simpa [pyTruthy] using hA, by simpa using hAB⟩]
    rfl
  · unfold acquire_run_lock
    rw [howner]
    rw [if_neg (by simp), if_pos rfl]
  · unfold release_run_lock
    rw [howner, if_neg (by simpa using hAB)]
  · unfold release_run_lock
    rw [howner, if_pos rfl]
  · unfold release_run_lock
    rw [howner, if_pos rfl]

/-- C5 witness: the amended lock protocol at `A = "A"`, `B = "B"` on a fresh
state. -/
theorem C5_amended_witness :
    (let st1 := { agentState0 with locked_by := some "A", lock_timestamp := some "t0" }
     st1.locked_by = some "A" ∧
     acquire_run_lock st1 "B" "t1" = .error ("Run locked by " ++ "A") ∧
     acquire_run_lock st1 "A" "t1" = .ok st1 ∧
     release_run_lock st1 "B" = st1 ∧
     (release_run_lock st1 "A").locked_by = none ∧
     (release_run_lock st1 "A").lock_timestamp = none) :=
  C5_amended agentState0 "A" "B" "t0" "t1" (by decide) (by decide) _ rfl

/-- C9 counterexample: on a failing handler the wrapper re-raises WITHOUT
setting `last_node` — the carried state still has `last_node = none`, not the
executed node id, so the claim's "sets `state.last_node`" does not hold for
every execution. -/
theorem C9_counterexample :
    run_node "nodeX" (fun _ => .error "boom") agentState0 =
      ([⟨"node_started", "nodeX", "orchestrator", "nodeX", none, none, none⟩,
        ⟨"node_completed", "nodeX", "orchestrator", "nodeX", some "failed",
          some "boom", some ""⟩],
       .error ("boom", { agentState0 with errors := ["nodeX failed: boom"] })) ∧
    ({ agentState0 with errors := ["nodeX failed: boom"] }).last_node ≠ some "nodeX" :=
  ⟨rfl, by simp [agentState0]⟩

/-- C9 (amended): if the handler raises, the wrapper appends the formatted
error string to `state.errors`, emits `node_completed` with status `failed`
and the error message, and re-raises, leaving `last_node` unchanged; if the
handler succeeds, the wrapper sets `last_node` to the executed node id. -/
theorem C9_amended (node_id : String) (f : AgentState → Except String AgentState)
    (st : AgentState) :
    (∀ msg, f st = .error msg →
      ∃ stE,
        run_node node_id f st =
          ([⟨"node_started", node_id, nodeKind node_id, nodeLabel node_id,
              none, none, none⟩,
            ⟨"node_completed", node_id, nodeKind node_id, nodeLabel node_id,
              some "failed", some msg, some (summarize_node_result node_id stE)⟩],
           .error (msg, stE)) ∧
        stE.errors = st.errors ++ [node_id ++ " failed: " ++ msg] ∧
        stE.last_node = st.last_node) ∧
    (∀ st1, f st = .ok st1 →
      run_node node_id f st =
        ([⟨"node_started", node_id, nodeKind node_id, nodeLabel node_id,
            none, none, none⟩,
          ⟨"node_completed", node_id, nodeKind node_id, nodeLabel node_id,
            some "success", none, some (summarize_node_result node_id st1)⟩],
         .ok { st1 with last_node := some node_id })) := by
  constructor
  · intro msg hmsg
    refine ⟨{ st with errors := st.errors ++ [node_id ++ " failed: " ++ msg] }, ?_, rfl, rfl⟩
    unfold run_node
    rw [hmsg]
  · intro st1 hok
    unfold run_node
    rw [hok]

/-- C9 witness: the failure branch of the run wrapper at a concrete failing
handler. -/
theorem C9_amended_witness :
    ∃ stE,
      run_node "nodeY" (fun _ => .error "kaput") agentState0 =
        ([⟨"node_started", "nodeY", nodeKind "nodeY", nodeLabel "nodeY",
            none, none, none⟩,
          ⟨"node_completed", "nodeY", nodeKind "nodeY", nodeLabel "nodeY",
            some "failed", some "kaput", some (summarize_node_result "nodeY" stE)⟩],
         .error ("kaput", stE)) ∧
      stE.errors = agentState0.errors ++ ["nodeY" ++ " failed: " ++ "kaput"] ∧
      stE.last_node = agentState0.last_node :=
  (C9_amended "nodeY" (fun _ => .error "kaput") agentState0).1 "kaput" rfl

/-- C4: when `control` names a registered handler that succeeds, one
orchestrate step advances `control` via the fixed transition table when the
node did not change it itself (falling back to `"completed"` when the table
has no entry), and leaves a node-chosen `control` untouched; the table maps
`phase0_ingestion` to `phase1_toc_review`, and one `orchestrate` run over a
no-op `phase0_ingestion` handler ends with `control = phase1_toc_review`. -/
theorem C4 (registry : String → Option (AgentState → Except String AgentState))
    (stops : List String) (st : AgentState) (c : String)
    (f : AgentState → Except String AgentState) (st1 : AgentState)
    (hc : st.control = some c) (hne : c ≠ "") (hstop : stops.contains c = false)
    (hreg : registry c = some f) (hok : f st = .ok st1) :
    (st1.control = some c →
      orchestrate_step registry stops st =
        .stepped
          [⟨"node_started", c, nodeKind c, nodeLabel c, none, none, none⟩,
           ⟨"node_completed", c, nodeKind c, nodeLabel c, some "success", none,
             some (summarize_node_result c st1)⟩]
          { st1 with last_node := some c,
                     control := some ((NODE_TRANSITIONS c).getD "completed") }) ∧
    (st1.control ≠ some c →
      orchestrate_step registry stops st =
        .stepped
          [⟨"node_started", c, nodeKind c, nodeLabel c, none, none, none⟩,
           ⟨"node_completed", c, nodeKind c, nodeLabel c, some "success", none,
             some (summarize_node_result c st1)⟩]
          { st1 with last_node := some c }) ∧
    NODE_TRANSITIONS "phase0_ingestion" = some "phase1_toc_review" ∧
    (orchestrate 10 noopRegistry ORCHESTRATOR_WAIT_STATES agentStatePhase0).2 =
      .ok { agentStatePhase0 with
              last_node := some "phase0_ingestion",
              control := some "phase1_toc_review" } := by
  have hstep : orchestrate_step registry stops st =
      .stepped
        [⟨"node_started", c, nodeKind c, nodeLabel c, none, none, none⟩,
         ⟨"node_completed", c, nodeKind c, nodeLabel c, some "success", none,
           some (summarize_node_result c st1)⟩]
        (advance_control c { st1 with last_node := some c }) := by
    unfold orchestrate_step
    rw [hc]
    simp only [hne, hstop, Bool.false_eq_true, or_self, if_false, hreg, run_node, hok]
  refine ⟨?_, ?_, rfl, rfl⟩
  · intro hsame
    rw [hstep]
    unfold advance_control
    rw [if_neg (by simpa using hsame)]
    cases htr : NODE_TRANSITIONS c <;> simp [htr]
  · intro hdiff
    rw [hstep]
    unfold advance_control
    rw [if_pos (by simpa using hdiff)]

/-- C4 witness: one orchestrate step over the no-op `phase0_ingestion`
registry advances `control` to `phase1_toc_review`. -/
theorem C4_witness :
    orchestrate_step noopRegistry ORCHESTRATOR_WAIT_STATES agentStatePhase0 =
      .stepped
        [⟨"node_started", "phase0_ingestion", nodeKind "phase0_ingestion",
           nodeLabel "phase0_ingestion", none, none, none⟩,
         ⟨"node_completed", "phase0_ingestion", nodeKind "phase0_ingestion",
           nodeLabel "phase0_ingestion", some "success", none,
           some (summarize_node_result "phase0_ingestion" agentStatePhase0)⟩]
        { agentStatePhase0 with
            last_node := some "phase0_ingestion",
            control := some ((NODE_TRANSITIONS "phase0_ingestion").getD "completed") } :=
  (C4 noopRegistry ORCHESTRATOR_WAIT_STATES agentStatePhase0 "phase0_ingestion"
    (fun s => .ok s) agentStatePhase0 rfl (by decide) (by decide) rfl rfl).1 rfl

/-- C1 failing-input evaluation: with one applicable suggested change and no
explicit filters, a plan whose `change_ids_to_apply` is empty (mode
`by_ids`) makes the code return ALL applicable changes (the claim says it
selects nothing) — only the warning is emitted; and a plan referencing the
unavailable id `"ghost"` selects nothing but emits NO warning (the claim says
the dropped id is warned about), because the source tests the plan ids
against their own set. -/
theorem C1_code_bug_eval :
    (select_changes_for_application stSel none none (some planEmptyIds)).selected =
      [chgGrammar] ∧
    (select_changes_for_application stSel none none (some planEmptyIds)).warnings =
      ["Change selection plan did not specify any IDs to apply."] ∧
    (select_changes_for_application stSel none none (some planGhostIds)).selected = [] ∧
    (select_changes_for_application stSel none none (some planGhostIds)).warnings = [] ∧
    (select_changes_for_application stSel none none
        (some ⟨"all", [], "apply everything"⟩)).selected = [chgGrammar] :=
  ⟨rfl, rfl, rfl, rfl, rfl⟩

/-- The selection loop is the pair of filters: applicable changes in order,
and the skipped entries with their reason. -/
theorem partitionApplicable_eq (l : List Change) :
    partitionApplicable l =
      (l.filter (fun c => !isUnanchoredMissingContent c),
       (l.filter isUnanchoredMissingContent).map (fun c => ⟨c, skipReason⟩)) := by
  induction l with
  | nil => rfl
  | cons c rest ih =>
      simp only [partitionApplicable, ih, List.filter]
      cases h : isUnanchoredMissingContent c <;> simp [h]

/-- Every branch of the selection records exactly the partition's skipped
entries in the state and leaves the rest of the state unchanged. -/
theorem select_state_eq (st : AgentState) (ids : Option (List String))
    (sf : Option String) (plan : Option ChangeSelectionPlan) :
    (select_changes_for_application st ids sf plan).state =
      { st with changes := { st.changes with
          skipped_changes := (partitionApplicable st.changes.suggested_changes).2 } } := by
  simp only [select_changes_for_application]
  repeat' split
  all_goals rfl

/-- Every branch of the selection returns a subset of the applicable set. -/
theorem select_selected_sub (st : AgentState) (ids : Option (List String))
    (sf : Option String) (plan : Option ChangeSelectionPlan) :
    ∀ x ∈ (select_changes_for_application st ids sf plan).selected,
      x ∈ (partitionApplicable st.changes.suggested_changes).1 := by
  simp only [select_changes_for_application]
  repeat' split
  all_goals intro x hx
  all_goals first
    | exact hx
    | exact List.mem_of_mem_filter hx

/-- Registering an artifact never touches the `changes` block. -/
theorem register_changes_eq (s : AgentState) (a : VfsArtifact) :
    (register_vfs_artifact s a).changes = s.changes := by
  unfold register_vfs_artifact
  split <;> rfl

/-- Syncing artifacts never touches the `changes` block. -/
theorem sync_changes_eq (entries : List (String × String)) :
    ∀ (s : AgentState) (now : String),
      (sync_vfs_artifacts s entries now).changes = s.changes := by
  induction entries with
  | nil => intro s now; rfl
  | cons e rest ih =>
      intro s now
      show (sync_vfs_artifacts (register_vfs_artifact s ⟨e.1, e.2, now⟩) rest now).changes
          = s.changes
      rw [ih, register_changes_eq]

/-- After `_apply_changes_core`, the applied-id list is the tool's list when a
non-empty selection was passed, and the previous list otherwise. -/
theorem apply_applied_ids_eq (tool : ToolResult) (sel : List Change)
    (orig : Option String) (now : String) (s : AgentState) :
    (apply_changes_core tool sel orig now s).changes.applied_change_ids =
      if sel.isEmpty then s.changes.applied_change_ids
      else tool.applied_change_ids := by
  simp only [apply_changes_core]
  split
  · rfl
  · split
    · rw [sync_changes_eq]
    · rfl

/-- C2: a `missing_content` change whose `original_text` strips to empty is
never selected, is recorded in `skipped_changes` with the reason string, the
number of excluded changes equals `len(skipped_changes)`, and — for a
deterministic-apply capability that only reports ids of passed changes, and
distinct change ids — its id never appears in `applied_change_ids`. -/
theorem C2 (st : AgentState) (change_ids : Option (List String))
    (severity_filter : Option String) (plan : Option ChangeSelectionPlan)
    (c : Change) (hc : c ∈ st.changes.suggested_changes)
    (hty : c.type = "missing_content") (hor : pyStrip c.original_text = "") :
    c ∉ (select_changes_for_application st change_ids severity_filter plan).selected ∧
    (⟨c, skipReason⟩ : SkippedChange) ∈
      (select_changes_for_application st change_ids severity_filter
        plan).state.changes.skipped_changes ∧
    (select_changes_for_application st change_ids severity_filter
        plan).state.changes.skipped_changes.length =
      (st.changes.suggested_changes.filter isUnanchoredMissingContent).length ∧
    (∀ (tool : ToolResult) (orig : Option String) (now : String),
      (∀ i ∈ tool.applied_change_ids,
        i ∈ (select_changes_for_application st change_ids severity_filter
          plan).selected.map Change.id) →
      (∀ c' ∈ st.changes.suggested_changes, c'.id = c.id → c' = c) →
      c.id ∉ st.changes.applied_change_ids →
      c.id ∉ (apply_changes_core tool
        (select_changes_for_application st change_ids severity_filter plan).selected
        orig now
        (select_changes_for_application st change_ids severity_filter
          plan).state).changes.applied_change_ids) := by
  have hun : isUnanchoredMissingContent c = true := by
    simp [isUnanchoredMissingContent, hty, hor]
  have hnotsel :
      c ∉ (select_changes_for_application st change_ids severity_filter plan).selected := by
    intro hmem
    have happ := select_selected_sub st change_ids severity_filter plan c hmem
    rw [partitionApplicable_eq] at happ
    have := List.of_mem_filter happ
    simp [hun] at this
  refine ⟨hnotsel, ?_, ?_, ?_⟩
  · rw [select_state_eq]
    show (⟨c, skipReason⟩ : SkippedChange) ∈
      (partitionApplicable st.changes.suggested_changes).2
    rw [partitionApplicable_eq]
    exact List.mem_map.mpr ⟨c, List.mem_filter.mpr ⟨hc, hun⟩, rfl⟩
  · rw [select_state_eq]
    show (partitionApplicable st.changes.suggested_changes).2.length = _
    rw [partitionApplicable_eq]
    exact List.length_map _ _
  · intro tool orig now hsub huniq hpre hmem
    rw [apply_applied_ids_eq] at hmem
    by_cases hsel :
        (select_changes_for_application st change_ids severity_filter
          plan).selected.isEmpty
    · rw [if_pos hsel] at hmem
      rw [select_state_eq] at hmem
      exact hpre hmem
    · rw [if_neg hsel] at hmem
      have hid := hsub c.id hmem
      obtain ⟨c', hc', hcid⟩ := List.mem_map.mp hid
      have happ := select_selected_sub st change_ids severity_filter plan c' hc'
      rw [partitionApplicable_eq] at happ
      have hc'sug := List.mem_of_mem_filter happ
      have : c' = c := huniq c' hc'sug hcid
      subst this
      exact hnotsel hc'

/-- C2 witness: the unanchored `missing_content` change on a concrete state is
excluded, recorded as skipped, and its id is absent from the applied ids after
a concrete apply. -/
theorem C2_witness :
    chgMissing ∉ (select_changes_for_application stC2 none none none).selected ∧
    (⟨chgMissing, skipReason⟩ : SkippedChange) ∈
      (select_changes_for_application stC2 none none none).state.changes.skipped_changes ∧
    chgMissing.id ∉ (apply_changes_core toolOne
      (select_changes_for_application stC2 none none none).selected none "t1"
      (select_changes_for_application stC2 none none none).state).changes.applied_change_ids := by
  have h := C2 stC2 none none none chgMissing (by decide) (by decide) (by decide)
  exact ⟨h.1, h.2.1, h.2.2.2 toolOne none "t1" (by decide) (by decide) (by decide)⟩

/-- C3 counterexample: on a state where `/changes/applied_changes.json` is
already registered, a successful apply registers only ONE new artifact (the
duplicate registration is a no-op), not exactly two as the claim states for
every state. -/
theorem C3_counterexample :
    (apply_changes_core toolOne [chgGrammar] none "t1" stApplied).vfs_artifacts =
      [⟨"/changes/applied_changes.json", "Applied Changes", "t0"⟩,
       ⟨"/versions/v2_document.md", "Improved Document", "t1"⟩] ∧
    (apply_changes_core toolOne [chgGrammar] none "t1" stApplied).vfs_artifacts.length ≠
      stApplied.vfs_artifacts.length + 2 :=
  ⟨rfl, by decide⟩

/-- Registering an artifact puts its path in the registry (whether or not it
was already there). -/
theorem register_path_mem (s : AgentState) (a : VfsArtifact) :
    a.path ∈ (register_vfs_artifact s a).vfs_artifacts.map VfsArtifact.path := by
  unfold register_vfs_artifact
  split
  · next h => simpa using h
  · simp

/-- Registering an artifact keeps every previously registered path. -/
theorem register_mem_mono (s : AgentState) (a : VfsArtifact) (x : String)
    (h : x ∈ s.vfs_artifacts.map VfsArtifact.path) :
    x ∈ (register_vfs_artifact s a).vfs_artifacts.map VfsArtifact.path := by
  unfold register_vfs_artifact
  split
  · exact h
  · simp [h]

/-- Registering a fresh path appends exactly one artifact. -/
theorem register_length_fresh (s : AgentState) (a : VfsArtifact)
    (h : a.path ∉ s.vfs_artifacts.map VfsArtifact.path) :
    (register_vfs_artifact s a).vfs_artifacts.length = s.vfs_artifacts.length + 1 := by
  unfold register_vfs_artifact
  rw [if_neg (by simpa using h)]
  simp

/-- Registering an artifact only touches `vfs_artifacts`: the registered
paths after a register are the old ones, possibly with the new path at the
end. -/
theorem register_paths_cases (s : AgentState) (a : VfsArtifact) :
    (register_vfs_artifact s a).vfs_artifacts.map VfsArtifact.path =
      s.vfs_artifacts.map VfsArtifact.path ∨
    (register_vfs_artifact s a).vfs_artifacts.map VfsArtifact.path =
      s.vfs_artifacts.map VfsArtifact.path ++ [a.path] := by
  unfold register_vfs_artifact
  split
  · exact Or.inl rfl
  · exact Or.inr (by simp)

/-- A numbered version path never collides with the applied-changes path. -/
theorem version_path_ne (n : Nat) :
    ("/versions/v" ++ toString n ++ "_document.md") ≠
      "/changes/applied_changes.json" := by
  intro h
  have hd := congrArg String.data h
  simp only [String.data_append] at hd
  simp at hd

/-- Registering an artifact leaves the document, metadata and phase status
untouched. -/
theorem register_fields_eq (s : AgentState) (a : VfsArtifact) :
    (register_vfs_artifact s a).structureData = s.structureData ∧
    (register_vfs_artifact s a).doc_meta = s.doc_meta ∧
    (register_vfs_artifact s a).phase3_status = s.phase3_status := by
  unfold register_vfs_artifact
  split <;> exact ⟨rfl, rfl, rfl⟩

/-- The shape of `_apply_changes_core` when the capability reports at least
one applied change. -/
theorem apply_core_nonempty (tool : ToolResult) (selected : List Change)
    (orig : Option String) (now : String) (st : AgentState)
    (hsel : selected ≠ []) (happ : tool.applied_change_ids ≠ []) :
    apply_changes_core tool selected orig now st =
      sync_vfs_artifacts
        { st with
          structureData := ⟨tool.new_raw_markdown⟩,
          doc_meta := ⟨some (st.doc_meta.version.getD 1 + 1)⟩,
          phase3_status := "success",
          changes := { st.changes with
            applied_change_ids := tool.applied_change_ids,
            failed_changes := tool.failed_changes,
            new_raw_text := some tool.new_raw_markdown,
            pre_apply_text := some (pyOrStr orig st.structureData.raw_text) } }
        [("/versions/v" ++ toString (st.doc_meta.version.getD 1 + 1) ++ "_document.md",
          "Improved Document"),
         ("/changes/applied_changes.json", "Applied Changes")] now := by
  have h1 : selected.isEmpty = false := by
    cases selected
    · exact absurd rfl hsel
    · rfl
  have h2 : tool.applied_change_ids.isEmpty = false := by
    cases h : tool.applied_change_ids
    · exact absurd h happ
    · rfl
  simp only [apply_changes_core, h1, h2]
  rfl

/-- The shape of `_apply_changes_core` when the capability reports zero
applied changes (for a non-empty selection). -/
theorem apply_core_zero (tool : ToolResult) (selected : List Change)
    (orig : Option String) (now : String) (st : AgentState)
    (hsel : selected ≠ []) (happ : tool.applied_change_ids = []) :
    apply_changes_core tool selected orig now st =
      { st with
        phase3_status := "failed",
        changes := { st.changes with
          applied_change_ids := tool.applied_change_ids,
          failed_changes := tool.failed_changes,
          new_raw_text := some tool.new_raw_markdown } } := by
  have h1 : selected.isEmpty = false := by
    cases selected
    · exact absurd rfl hsel
    · rfl
  have h2 : tool.applied_change_ids.isEmpty = true := by
    rw [happ]
    rfl
  simp only [apply_changes_core, h1, h2]
  rfl

/-- Effect of `_sync_vfs_artifacts` on a two-entry list: all non-registry
fields are preserved, both paths end up registered, and when both paths are
fresh and distinct exactly two artifacts are appended. -/
theorem sync_two_fields (s : AgentState) (p1 l1 p2 l2 now : String) :
    (sync_vfs_artifacts s [(p1, l1), (p2, l2)] now).structureData = s.structureData ∧
    (sync_vfs_artifacts s [(p1, l1), (p2, l2)] now).doc_meta = s.doc_meta ∧
    (sync_vfs_artifacts s [(p1, l1), (p2, l2)] now).phase3_status = s.phase3_status ∧
    (sync_vfs_artifacts s [(p1, l1), (p2, l2)] now).changes = s.changes ∧
    p1 ∈ (sync_vfs_artifacts s [(p1, l1), (p2, l2)] now).vfs_artifacts.map
      VfsArtifact.path ∧
    p2 ∈ (sync_vfs_artifacts s [(p1, l1), (p2, l2)] now).vfs_artifacts.map
      VfsArtifact.path ∧
    (p1 ∉ s.vfs_artifacts.map VfsArtifact.path →
     p2 ∉ s.vfs_artifacts.map VfsArtifact.path →
     p2 ≠ p1 →
     (sync_vfs_artifacts s [(p1, l1), (p2, l2)] now).vfs_artifacts.length =
       s.vfs_artifacts.length + 2) := by
  have hsync : sync_vfs_artifacts s [(p1, l1), (p2, l2)] now =
      register_vfs_artifact (register_vfs_artifact s ⟨p1, l1, now⟩) ⟨p2, l2, now⟩ := rfl
  rw [hsync]
  refine ⟨?_, ?_, ?_, ?_, ?_, ?_, ?_⟩
  · rw [(register_fields_eq _ _).1, (register_fields_eq _ _).1]
  · rw [(register_fields_eq _ _).2.1, (register_fields_eq _ _).2.1]
  · rw [(register_fields_eq _ _).2.2, (register_fields_eq _ _).2.2]
  · rw [register_changes_eq, register_changes_eq]
  · exact register_mem_mono _ _ _ (register_path_mem _ _)
  · exact register_path_mem _ _
  · intro h1 h2 hne
    have e1 := register_length_fresh s ⟨p1, l1, now⟩ h1
    have h2' : (⟨p2, l2, now⟩ : VfsArtifact).path ∉
        (register_vfs_artifact s ⟨p1, l1, now⟩).vfs_artifacts.map VfsArtifact.path := by
      rcases register_paths_cases s ⟨p1, l1, now⟩ with h | h
      · rw [h]
        exact h2
      · rw [h]
        intro hm
        rcases List.mem_append.mp hm with hm | hm
        · exact h2 hm
        · exact hne (List.mem_singleton.mp hm)
    have e2 := register_length_fresh _ _ h2'
    rw [e2, e1]

/-- C3 (amended): with at least one applied change id the document text is
replaced, `doc_meta.version` increments by exactly 1, the pre-apply snapshot
is retained in `_pre_apply_text`, and the two artifact paths
`/versions/v{N}_document.md` and `/changes/applied_changes.json` are
registered — exactly two NEW artifacts when neither path was registered
before (duplicate registration is a no-op); with zero applied ids,
`phase3_status` is `failed` and neither the text nor the version changes. -/
theorem C3_amended (tool : ToolResult) (selected : List Change)
    (orig : Option String) (now : String) (st : AgentState) (v : Nat)
    (hv : st.doc_meta.version = some v) (hsel : selected ≠ []) :
    (tool.applied_change_ids ≠ [] →
      (apply_changes_core tool selected orig now st).structureData.raw_text =
        tool.new_raw_markdown ∧
      (apply_changes_core tool selected orig now st).doc_meta.version = some (v + 1) ∧
      (apply_changes_core tool selected orig now st).phase3_status = "success" ∧
      (apply_changes_core tool selected orig now st).changes.pre_apply_text =
        some (pyOrStr orig st.structureData.raw_text) ∧
      ("/versions/v" ++ toString (v + 1) ++ "_document.md") ∈
        (apply_changes_core tool selected orig now st).vfs_artifacts.map
          VfsArtifact.path ∧
      "/changes/applied_changes.json" ∈
        (apply_changes_core tool selected orig now st).vfs_artifacts.map
          VfsArtifact.path ∧
      (("/versions/v" ++ toString (v + 1) ++ "_document.md") ∉
          st.vfs_artifacts.map VfsArtifact.path →
       "/changes/applied_changes.json" ∉ st.vfs_artifacts.map VfsArtifact.path →
       (apply_changes_core tool selected orig now st).vfs_artifacts.length =
         st.vfs_artifacts.length + 2)) ∧
    (tool.applied_change_ids = [] →
      (apply_changes_core tool selected orig now st).phase3_status = "failed" ∧
      (apply_changes_core tool selected orig now st).doc_meta.version =
        st.doc_meta.version ∧
      (apply_changes_core tool selected orig now st).structureData.raw_text =
        st.structureData.raw_text) := by
  constructor
  · intro happ
    rw [apply_core_nonempty tool selected orig now st hsel happ, hv]
    simp only [Option.getD_some]
    have h := sync_two_fields
      { st with
        structureData := ⟨tool.new_raw_markdown⟩,
        doc_meta := ⟨some (v + 1)⟩,
        phase3_status := "success",
        changes := { st.changes with
          applied_change_ids := tool.applied_change_ids,
          failed_changes := tool.failed_changes,
          new_raw_text := some tool.new_raw_markdown,
          pre_apply_text := some (pyOrStr orig st.structureData.raw_text) } }
      ("/versions/v" ++ toString (v + 1) ++ "_document.md") "Improved Document"
      "/changes/applied_changes.json" "Applied Changes" now
    refine ⟨?_, ?_, ?_, ?_, h.2.2.2.2.1, h.2.2.2.2.2.1, ?_⟩
    · rw [h.1]
    · rw [h.2.1]
    · rw [h.2.2.1]
    · rw [h.2.2.2.1]
    · intro hvp hap
      exact h.2.2.2.2.2.2 hvp hap (fun he => version_path_ne (v + 1) he.symm)
  · intro happ
    rw [apply_core_zero tool selected orig now st hsel happ]
    exact ⟨rfl, rfl, rfl⟩

/-- C3 witness: a concrete successful apply bumps the version from 1 to 2 and
adds exactly two artifacts to a fresh registry. -/
theorem C3_amended_witness :
    (apply_changes_core toolOne [chgGrammar] none "t1" agentState0).doc_meta.version =
      some 2 ∧
    (apply_changes_core toolOne [chgGrammar] none "t1" agentState0).vfs_artifacts.length =
      agentState0.vfs_artifacts.length + 2 := by
  have h := (C3_amended toolOne [chgGrammar] none "t1" agentState0 1 rfl
    (by decide)).1 (by decide)
  exact ⟨h.2.1, h.2.2.2.2.2.2 (by decide) (by decide)⟩

theorem splitSlash_ne_nil (l : List Char) : splitSlash l ≠ [] := by
  cases l with
  | nil => simp [splitSlash]
  | cons c rest =>
      simp only [splitSlash]
      split <;> simp

theorem splitSlash_append_no_slash (l1 l2 : List Char) (h : ∀ c ∈ l1, c ≠ '/') :
    splitSlash (l1 ++ l2) =
      (l1 ++ (splitSlash l2).headD []) :: (splitSlash l2).tail := by
  induction l1 with
  | nil =>
      cases hsp : splitSlash l2 with
      | nil => exact absurd hsp (splitSlash_ne_nil l2)
      | cons h t => simp [hsp]
  | cons c cs ih =>
      have hc : c ≠ '/' := h c (by simp)
      have ih' := ih (fun x hx => h x (by simp [hx]))
      simp only [List.cons_append, splitSlash, List.append_eq]
      rw [if_neg hc, ih']
      simp

theorem splitSlash_no_slash (l : List Char) (h : ∀ c ∈ l, c ≠ '/') :
    splitSlash l = [l] := by
  have := splitSlash_append_no_slash l [] h
  simpa [splitSlash] using this

theorem splitSlash_dir_path (dir rest : List Char)
    (hdir : ∀ c ∈ dir, c ≠ '/') (hrest : ∀ c ∈ rest, c ≠ '/') :
    splitSlash ("/phase2/".data ++ (dir ++ '/' :: rest)) =
      [[], "phase2".data, dir, rest] := by
  have hrest' : splitSlash rest = [rest] := splitSlash_no_slash rest hrest
  have hstep2 : splitSlash ('/' :: rest) = [] :: [rest] := by
    simp [splitSlash, hrest']
  have hstep3 : splitSlash (dir ++ '/' :: rest) = [dir, rest] := by
    rw [splitSlash_append_no_slash dir _ hdir, hstep2]
    simp
  have hstep4 :
      splitSlash ("phase2".data ++ ('/' :: (dir ++ '/' :: rest))) =
        ["phase2".data, dir, rest] := by
    rw [splitSlash_append_no_slash "phase2".data _ (by decide)]
    rw [show splitSlash ('/' :: (dir ++ '/' :: rest)) =
          [] :: splitSlash (dir ++ '/' :: rest) from by simp [splitSlash]]
    rw [hstep3]
    simp
  calc splitSlash ("/phase2/".data ++ (dir ++ '/' :: rest))
      = splitSlash ('/' :: ("phase2".data ++ ('/' :: (dir ++ '/' :: rest)))) := rfl
    _ = [] :: splitSlash ("phase2".data ++ ('/' :: (dir ++ '/' :: rest))) := by
          simp [splitSlash]
    _ = [[], "phase2".data, dir, rest] := by rw [hstep4]

theorem resolve_dir_built (st : VfsState) (dir : List Char) (s sfx path : String)
    (hdir : ∀ c ∈ dir, c ≠ '/') (hs : ∀ c ∈ s.data, c ≠ '/')
    (hsfx : ∀ c ∈ sfx.data, c ≠ '/')
    (hpath : path.toList = "/phase2/".data ++ (dir ++ '/' :: (s.data ++ sfx.data))) :
    resolveSectionFromPath st path sfx =
      (st.chunks.find? (fun kv => slugify_section kv.1 == s)).map Prod.fst := by
  have hrest : ∀ c ∈ s.data ++ sfx.data, c ≠ '/' := by
    intro c hc
    rcases List.mem_append.mp hc with hc | hc
    · exact hs c hc
    · exact hsfx c hc
  have hsplit := splitSlash_dir_path dir (s.data ++ sfx.data) hdir hrest
  have hsuf : sfx.toList.isSuffixOf (s.data ++ sfx.data) = true := by
    rw [List.isSuffixOf_iff_suffix]
    exact List.suffix_append _ _
  have hlen : (s.data ++ sfx.data).length - sfx.length = s.data.length := by
    rw [List.length_append, show sfx.length = sfx.data.length from rfl]
    omega
  simp only [resolveSectionFromPath]
  rw [hpath, hsplit]
  rw [if_neg (by simp)]
  rw [show ([[], "phase2".data, dir, s.data ++ sfx.data] : List (List Char)).getLastD []
        = s.data ++ sfx.data from rfl]
  rw [hsuf]
  simp only [Bool.not_true, Bool.false_eq_true, if_false]
  rw [hlen, List.take_left]

theorem char_toNat_ofNat (n : Nat) (h : n.isValidChar) :
    (Char.ofNat n).toNat = n := by
  unfold Char.ofNat
  rw [dif_pos h]
  rfl

theorem toLower_ne_slash (a : Char) (ha : a.isAlphanum = true) :
    a.toLower ≠ '/' := by
  intro h
  simp only [Char.toLower] at h
  split at h
  · next hr =>
      have hv : (a.toNat + 32).isValidChar := Or.inl (by omega)
      have h2 := congrArg Char.toNat h
      rw [char_toNat_ofNat _ hv] at h2
      have h47 : ('/' : Char).toNat = 47 := by decide
      rw [h47] at h2
      omega
  · subst h
    exact absurd ha (by decide)

theorem slugify_no_slash (t : String) : ∀ c ∈ (slugify_section t).data, c ≠ '/' := by
  intro c hc
  simp only [slugify_section] at hc
  split at hc
  · have hc' : c ∈ ['s', 'e', 'c', 't', 'i', 'o', 'n'] := hc
    simp at hc'
    rcases hc' with rfl | rfl | rfl | rfl | rfl | rfl | rfl <;> decide
  · have hc1 : c ∈ ((((t.data.map
        (fun ch => if ch.isAlphanum then ch.toLower else '_')).dropWhile
          (· = '_')).reverse.dropWhile (· = '_')).reverse) := hc
    rw [List.mem_reverse] at hc1
    have hc2 := (List.dropWhile_sublist _).subset hc1
    rw [List.mem_reverse] at hc2
    have hc3 := (List.dropWhile_sublist _).subset hc2
    obtain ⟨a, _, hfa⟩ := List.mem_map.mp hc3
    by_cases hal : a.isAlphanum = true
    · rw [if_pos hal] at hfa
      rw [← hfa]
      exact toLower_ne_slash a hal
    · rw [if_neg hal] at hfa
      rw [← hfa]
      decide

theorem pyRstrip_eq_self_head (s : String) (c : Char) (l : List Char)
    (h : s.data.reverse = c :: l) (hc : c.isWhitespace = false) : pyRstrip s = s := by
  unfold pyRstrip
  show String.mk ((s.data.reverse.dropWhile Char.isWhitespace).reverse) = s
  rw [h, List.dropWhile_cons, hc]
  simp only [Bool.false_eq_true, if_false]
  rw [← h, List.reverse_reverse]

theorem vfsNormalize_eq_self (p : String) (hne : p ≠ "")
    (hsw : strStartsWith p "/" = true) (hrs : pyRstrip p = p) :
    vfsNormalize p = p := by
  unfold vfsNormalize
  rw [if_neg hne]
  simp only [hsw, if_true, hrs]
  rw [if_neg hne]

theorem read_file_sections_branch (st : VfsState) (p : String)
    (hnorm : vfsNormalize p = p)
    (hrev : strStartsWith p "/phase2/reviews/" = false)
    (hsec : strStartsWith p "/phase2/sections/" = true) :
    read_file st p =
      match resolveSectionFromPath st p ".md" with
      | none => .error (.notFound p)
      | some t => .ok ((st.chunks.lookup t).getD "") := by
  have d : ∀ lit : String, strStartsWith lit "/phase2/sections/" = false → p ≠ lit := by
    intro lit hlit h
    rw [h, hlit] at hsec
    exact absurd hsec (by simp)
  simp only [read_file]
  rw [hnorm]
  rw [if_neg (d _ (by decide)), if_neg (d _ (by decide)), if_neg (d _ (by decide)),
      if_neg (d _ (by decide)), if_neg (d _ (by decide)), if_neg (d _ (by decide))]
  rw [hrev, hsec]
  simp only [Bool.false_eq_true, if_false, if_true]

theorem read_file_reviews_branch (st : VfsState) (p : String)
    (hnorm : vfsNormalize p = p)
    (hrev : strStartsWith p "/phase2/reviews/" = true) :
    read_file st p =
      match resolveSectionFromPath st p ".json" with
      | none => .error (.notFound p)
      | some t => .ok (to_json (st.reviews.lookup t)) := by
  have d : ∀ lit : String, strStartsWith lit "/phase2/reviews/" = false → p ≠ lit := by
    intro lit hlit h
    rw [h, hlit] at hrev
    exact absurd hrev (by simp)
  simp only [read_file]
  rw [hnorm]
  rw [if_neg (d _ (by decide)), if_neg (d _ (by decide)), if_neg (d _ (by decide)),
      if_neg (d _ (by decide)), if_neg (d _ (by decide)), if_neg (d _ (by decide))]
  rw [hrev]
  simp only [if_true]

theorem C7_amended (st : VfsState) (title text : String)
    (hfind : st.chunks.find?
        (fun kv => slugify_section kv.1 == slugify_section title) =
      some (title, text))
    (hlook : st.chunks.lookup title = some text) :
    read_file st ("/phase2/sections/" ++ slugify_section title ++ ".md") = .ok text ∧
    read_file st ("/phase2/reviews/" ++ slugify_section title ++ ".json") =
      .ok (to_json (st.reviews.lookup title)) := by
  constructor
  · -- sections
    have hpath : ("/phase2/sections/" ++ slugify_section title ++ ".md").toList =
        "/phase2/".data ++ ("sections".data ++ '/' ::
          ((slugify_section title).data ++ ".md".data)) := rfl
    have hres := resolve_dir_built st "sections".data (slugify_section title) ".md"
      ("/phase2/sections/" ++ slugify_section title ++ ".md")
      (by decide) (slugify_no_slash title) (by decide) hpath
    have hne : ("/phase2/sections/" ++ slugify_section title ++ ".md") ≠ "" := by
      intro h
      rw [h] at hpath
      simp at hpath
    have hsw : strStartsWith
        ("/phase2/sections/" ++ slugify_section title ++ ".md") "/" = true := rfl
    have hsh : ("/phase2/sections/" ++ slugify_section title ++ ".md").data =
        ("/phase2/sections/".data ++ (slugify_section title).data ++ ['.', 'm']) ++
          ['d'] := by
      show ("/phase2/sections/".data ++ (slugify_section title).data) ++
          ['.', 'm', 'd'] = _
      simp [List.append_assoc]
    have hrev : ("/phase2/sections/" ++ slugify_section title ++ ".md").data.reverse =
        'd' :: ("/phase2/sections/".data ++ (slugify_section title).data ++
          ['.', 'm']).reverse := by
      rw [hsh, List.reverse_concat]
    have hrs := pyRstrip_eq_self_head _ 'd' _ hrev (by decide)
    have hnorm := vfsNormalize_eq_self _ hne hsw hrs
    have hcons : ("/phase2/sections/" ++ slugify_section title ++ ".md").toList =
        '/' :: 'p' :: 'h' :: 'a' :: 's' :: 'e' :: '2' :: '/' :: 's' :: 'e' :: 'c' :: 't' :: 'i' :: 'o' :: 'n' :: 's' :: '/' ::
          ((slugify_section title).data ++ ".md".data) := rfl
    have hpre_rev : strStartsWith
        ("/phase2/sections/" ++ slugify_section title ++ ".md")
        "/phase2/reviews/" = false := by
      simp only [strStartsWith]
      rw [hcons]
      simp [List.isPrefixOf]
    have hpre_sec : strStartsWith
        ("/phase2/sections/" ++ slugify_section title ++ ".md")
        "/phase2/sections/" = true := by
      simp only [strStartsWith]
      rw [hcons]
      simp [List.isPrefixOf]
    rw [read_file_sections_branch st _ hnorm hpre_rev hpre_sec, hres, hfind]
    simp only [Option.map_some']
    rw [hlook]
    rfl
  · -- reviews
    have hpath : ("/phase2/reviews/" ++ slugify_section title ++ ".json").toList =
        "/phase2/".data ++ ("reviews".data ++ '/' ::
          ((slugify_section title).data ++ ".json".data)) := rfl
    have hres := resolve_dir_built st "reviews".data (slugify_section title) ".json"
      ("/phase2/reviews/" ++ slugify_section title ++ ".json")
      (by decide) (slugify_no_slash title) (by decide) hpath
    have hne : ("/phase2/reviews/" ++ slugify_section title ++ ".json") ≠ "" := by
      intro h
      rw [h] at hpath
      simp at hpath
    have hsw : strStartsWith
        ("/phase2/reviews/" ++ slugify_section title ++ ".json") "/" = true := rfl
    have hsh : ("/phase2/reviews/" ++ slugify_section title ++ ".json").data =
        ("/phase2/reviews/".data ++ (slugify_section title).data ++
          ['.', 'j', 's', 'o']) ++ ['n'] := by
      show ("/phase2/reviews/".data ++ (slugify_section title).data) ++
          ['.', 'j', 's', 'o', 'n'] = _
      simp [List.append_assoc]
    have hrev : ("/phase2/reviews/" ++ slugify_section title ++ ".json").data.reverse =
        'n' :: ("/phase2/reviews/".data ++ (slugify_section title).data ++
          ['.', 'j', 's', 'o']).reverse := by
      rw [hsh, List.reverse_concat]
    have hrs := pyRstrip_eq_self_head _ 'n' _ hrev (by decide)
    have hnorm := vfsNormalize_eq_self _ hne hsw hrs
    have hcons : ("/phase2/reviews/" ++ slugify_section title ++ ".json").toList =
        '/' :: 'p' :: 'h' :: 'a' :: 's' :: 'e' :: '2' :: '/' :: 'r' :: 'e' :: 'v' :: 'i' :: 'e' :: 'w' :: 's' :: '/' ::
          ((slugify_section title).data ++ ".json".data) := rfl
    have hpre_rev : strStartsWith
        ("/phase2/reviews/" ++ slugify_section title ++ ".json")
        "/phase2/reviews/" = true := by
      simp only [strStartsWith]
      rw [hcons]
      simp [List.isPrefixOf]
    rw [read_file_reviews_branch st _ hnorm hpre_rev, hres, hfind]
    simp only [Option.map_some']

/-- C7 counterexample: the title `"a  b"` (two spaces) slugifies in the code
to `"a__b"` — consecutive underscores are NOT collapsed as the claim states —
so reading the path built from the claim's collapsed slug `"a_b"` raises
`NotFound` while the uncollapsed path returns the section text. -/
theorem C7_counterexample :
    slugify_section "a  b" = "a__b" ∧
    slugifySectionSpec "a  b" = "a_b" ∧
    read_file vfsC7 "/phase2/sections/a_b.md" =
      .error (.notFound "/phase2/sections/a_b.md") ∧
    read_file vfsC7 "/phase2/sections/a__b.md" = .ok "SECTION TEXT" :=
  ⟨rfl, rfl, rfl, rfl⟩

/-- C7 witness: the concrete title `"Hello, World!"` resolves through its
slug `hello__world`. -/
theorem C7_amended_witness :
    read_file vfsC7Good
        ("/phase2/sections/" ++ slugify_section "Hello, World!" ++ ".md") =
      .ok "BODY" ∧
    read_file vfsC7Good
        ("/phase2/reviews/" ++ slugify_section "Hello, World!" ++ ".json") =
      .ok (to_json (vfsC7Good.reviews.lookup "Hello, World!")) :=
  C7_amended vfsC7Good "Hello, World!" "BODY" (by decide) (by decide)

theorem rg_run_loop_succ (llm : RgLLM) (doc : RgDocumentState) (tc : Option String)
    (fuel : Nat) (st : RgState) :
    rg_run_loop llm doc tc (Nat.succ fuel) st =
      (if st.control = "end" then .ok st
      else if st.control = "context_loader" then
        rg_run_loop llm doc tc fuel (context_loader_node doc tc st)
      else if st.control = "intent_classifier" then
        match intent_classifier_node llm.available (llm.classify st) st with
        | .error e => .error (e, st)
        | .ok st1 => rg_run_loop llm doc tc fuel st1
      else if st.control = "block_improver" then
        match block_improver_node llm.available (llm.improve st) st with
        | .error e => .error (e, st)
        | .ok st1 => rg_run_loop llm doc tc fuel st1
      else if st.control = "chat_responder" then
        match chat_responder_node llm.available (llm.chat st) st with
        | .error e => .error (e, st)
        | .ok st1 => rg_run_loop llm doc tc fuel st1
      else if st.control = "doc_searcher" then
        match doc_searcher_node llm.available (llm.search st) st with
        | .error e => .error (e, st)
        | .ok st1 => rg_run_loop llm doc tc fuel st1
      else .ok st) := rfl

theorem rg_loop_classifier_fallback (llm : RgLLM) (doc : RgDocumentState)
    (tc : Option String) (hav : llm.available = true) (msg : String)
    (hclass : ∀ s, llm.classify s = .error msg) (fuel : Nat) (st : RgState)
    (hc : st.control = "intent_classifier") (hsel : st.selected_blocks = []) :
    rg_run_loop llm doc tc (Nat.succ fuel) st =
      rg_run_loop llm doc tc fuel
        (make_node_result st "intent_classifier" "chat_responder"
          ("Fallback routing (error: " ++ msg ++ ")")
          (fun s => { s with
            intent := "general_question",
            intent_reasoning := "Fallback due to classification error",
            requires_block_context := false,
            requires_doc_search := false })) := by
  rw [rg_run_loop_succ, hc]
  rw [if_neg (by decide), if_neg (by decide), if_pos rfl]
  rw [hav, hclass]
  simp only [intent_classifier_node, hsel]
  rfl

theorem rg_loop_chat_eq (llm : RgLLM) (doc : RgDocumentState) (tc : Option String)
    (hav : llm.available = true) (fuel : Nat) (st : RgState)
    (hc : st.control = "chat_responder") :
    rg_run_loop llm doc tc (Nat.succ (Nat.succ fuel)) st =
      .ok (match llm.chat st with
        | .ok response =>
            make_node_result st "chat_responder" "end"
              "Generated conversational response"
              (fun s => { s with chat_response := response })
        | .error e =>
            make_node_result st "chat_responder" "end"
              ("Error generating response: " ++ e)
              (fun s => { s with chat_response :=
                "Sorry, I encountered an error: " ++ e })) := by
  rw [rg_run_loop_succ, hc]
  rw [if_neg (by decide), if_neg (by decide), if_neg (by decide),
      if_neg (by decide), if_pos rfl]
  rw [hav]
  cases hchat : llm.chat st with
  | ok r =>
      simp only [chat_responder_node, Bool.not_true, Bool.false_eq_true, if_false]
      rw [rg_run_loop_succ]
      rfl
  | error e =>
      simp only [chat_responder_node, Bool.not_true, Bool.false_eq_true, if_false]
      rw [rg_run_loop_succ]
      rfl

theorem rg_loop_classifier_fallback_blocks (llm : RgLLM) (doc : RgDocumentState)
    (tc : Option String) (hav : llm.available = true) (msg : String)
    (hclass : ∀ s, llm.classify s = .error msg) (fuel : Nat) (st : RgState)
    (hc : st.control = "intent_classifier") (hsel : st.selected_blocks ≠ []) :
    rg_run_loop llm doc tc (Nat.succ fuel) st =
      rg_run_loop llm doc tc fuel
        (make_node_result st "intent_classifier" "block_improver"
          ("Fallback routing (error: " ++ msg ++ ")")
          (fun s => { s with
            intent := "improve_blocks",
            intent_reasoning := "Fallback due to classification error",
            requires_block_context := true,
            requires_doc_search := false })) := by
  have hsel' : st.selected_blocks.isEmpty = false := by
    cases h : st.selected_blocks
    · exact absurd h hsel
    · rfl
  rw [rg_run_loop_succ, hc]
  rw [if_neg (by decide), if_neg (by decide), if_pos rfl]
  rw [hav, hclass]
  simp only [intent_classifier_node, hsel']
  rfl

theorem rg_loop_improver_eq (llm : RgLLM) (doc : RgDocumentState) (tc : Option String)
    (hav : llm.available = true) (fuel : Nat) (st : RgState)
    (hc : st.control = "block_improver") :
    rg_run_loop llm doc tc (Nat.succ (Nat.succ fuel)) st =
      .ok (match llm.improve st with
        | .ok (analysis, suggestions) =>
            make_node_result st "block_improver" "end"
              ("Generated " ++ toString suggestions.length ++ " block improvements")
              (fun s => { s with
                block_analysis := analysis, block_suggestions := suggestions })
        | .error e =>
            make_node_result st "block_improver" "end"
              ("Error generating improvements: " ++ e)
              (fun s => { s with
                block_analysis := "Error: " ++ e, block_suggestions := [] })) := by
  rw [rg_run_loop_succ, hc]
  rw [if_neg (by decide), if_neg (by decide), if_neg (by decide), if_pos rfl]
  rw [hav]
  cases himp : llm.improve st with
  | ok p =>
      obtain ⟨a, s⟩ := p
      simp only [block_improver_node, Bool.not_true, Bool.false_eq_true, if_false]
      rw [rg_run_loop_succ]
      rfl
  | error e =>
      simp only [block_improver_node, Bool.not_true, Bool.false_eq_true, if_false]
      rw [rg_run_loop_succ]
      rfl

/-- C8: for EVERY request whose intent-classifier call fails (LLM available,
invoke/parse raising inside the node's `try`), the router never aborts
(`error = none`) and falls back to routing by block-selection presence alone:
with no selected blocks it routes to `chat_responder` and the final output's
suggestion list is empty; with selected blocks present it routes to
`block_improver`. -/
theorem C8 (llm : RgLLM) (doc : RgDocumentState) (tc : Option String)
    (file_id prompt : String) (ids : List String) (hist : List RgMessage)
    (msg : String) (hav : llm.available = true)
    (hclass : ∀ s, llm.classify s = .error msg) :
    (rg_run llm file_id prompt ids hist doc tc).error = none ∧
    ((context_loader_node doc tc
        (rg_init_state file_id prompt ids hist)).selected_blocks = [] →
      (rg_run llm file_id prompt ids hist doc tc).suggestions = [] ∧
      ∃ e ∈ (rg_run llm file_id prompt ids hist doc tc).logs,
        e.node = "chat_responder") ∧
    ((context_loader_node doc tc
        (rg_init_state file_id prompt ids hist)).selected_blocks ≠ [] →
      ∃ e ∈ (rg_run llm file_id prompt ids hist doc tc).logs,
        e.node = "block_improver") := by
  have h1 : rg_run_loop llm doc tc 10 (rg_init_state file_id prompt ids hist) =
      rg_run_loop llm doc tc 9
        (context_loader_node doc tc (rg_init_state file_id prompt ids hist)) := rfl
  by_cases hb : (context_loader_node doc tc
      (rg_init_state file_id prompt ids hist)).selected_blocks = []
  · -- no selected blocks: fallback to chat_responder
    have h2 := rg_loop_classifier_fallback llm doc tc hav msg hclass 8
      (context_loader_node doc tc (rg_init_state file_id prompt ids hist)) rfl hb
    have h3 := rg_loop_chat_eq llm doc tc hav 6
      (make_node_result
        (context_loader_node doc tc (rg_init_state file_id prompt ids hist))
        "intent_classifier" "chat_responder"
        ("Fallback routing (error: " ++ msg ++ ")")
        (fun s => { s with
          intent := "general_question",
          intent_reasoning := "Fallback due to classification error",
          requires_block_context := false,
          requires_doc_search := false })) rfl
    simp only [rg_run]
    rw [h1, show (9 : Nat) = Nat.succ 8 from rfl, h2,
        show (8 : Nat) = Nat.succ (Nat.succ 6) from rfl, h3]
    cases hchat : llm.chat
        (make_node_result
          (context_loader_node doc tc (rg_init_state file_id prompt ids hist))
          "intent_classifier" "chat_responder"
          ("Fallback routing (error: " ++ msg ++ ")")
          (fun s => { s with
            intent := "general_question",
            intent_reasoning := "Fallback due to classification error",
            requires_block_context := false,
            requires_doc_search := false })) with
    | ok r =>
        refine ⟨rfl, fun _ => ⟨rfl,
          ⟨"chat_responder", "Generated conversational response", "end"⟩, ?_, rfl⟩,
          fun hne => absurd hb hne⟩
        simp [make_node_result, end_node, context_loader_node]
    | error e =>
        refine ⟨rfl, fun _ => ⟨rfl,
          ⟨"chat_responder", "Error generating response: " ++ e, "end"⟩, ?_, rfl⟩,
          fun hne => absurd hb hne⟩
        simp [make_node_result, end_node, context_loader_node]
  · -- selected blocks present: fallback to block_improver
    have h2 := rg_loop_classifier_fallback_blocks llm doc tc hav msg hclass 8
      (context_loader_node doc tc (rg_init_state file_id prompt ids hist)) rfl hb
    have h3 := rg_loop_improver_eq llm doc tc hav 6
      (make_node_result
        (context_loader_node doc tc (rg_init_state file_id prompt ids hist))
        "intent_classifier" "block_improver"
        ("Fallback routing (error: " ++ msg ++ ")")
        (fun s => { s with
          intent := "improve_blocks",
          intent_reasoning := "Fallback due to classification error",
          requires_block_context := true,
          requires_doc_search := false })) rfl
    simp only [rg_run]
    rw [h1, show (9 : Nat) = Nat.succ 8 from rfl, h2,
        show (8 : Nat) = Nat.succ (Nat.succ 6) from rfl, h3]
    cases himp : llm.improve
        (make_node_result
          (context_loader_node doc tc (rg_init_state file_id prompt ids hist))
          "intent_classifier" "block_improver"
          ("Fallback routing (error: " ++ msg ++ ")")
          (fun s => { s with
            intent := "improve_blocks",
            intent_reasoning := "Fallback due to classification error",
            requires_block_context := true,
            requires_doc_search := false })) with
    | ok p =>
        obtain ⟨a, s⟩ := p
        refine ⟨rfl, fun h0 => absurd h0 hb, fun _ =>
          ⟨⟨"block_improver",
            "Generated " ++ toString s.length ++ " block improvements", "end"⟩, ?_, rfl⟩⟩
        simp [make_node_result, end_node, context_loader_node]
    | error e =>
        refine ⟨rfl, fun h0 => absurd h0 hb, fun _ =>
          ⟨⟨"block_improver", "Error generating improvements: " ++ e, "end"⟩, ?_, rfl⟩⟩
        simp [make_node_result, end_node, context_loader_node]

/-- C8 witness: the concrete failing classifier on a request with zero
selected blocks (routed to `chat_responder`, empty suggestions) and on a
request with one selected block (routed to `block_improver`); neither run
aborts. -/
theorem C8_witness :
    ((rg_run rgLLMFailingClassifier "f1" "hello" [] [] rgDoc0 none).error = none ∧
     (rg_run rgLLMFailingClassifier "f1" "hello" [] [] rgDoc0 none).suggestions = [] ∧
     ∃ e ∈ (rg_run rgLLMFailingClassifier "f1" "hello" [] [] rgDoc0 none).logs,
       e.node = "chat_responder") ∧
    ((rg_run rgLLMFailingClassifier "f2" "improve" ["b1"] [] rgDocBlocks none).error =
       none ∧
     ∃ e ∈ (rg_run rgLLMFailingClassifier "f2" "improve" ["b1"] [] rgDocBlocks none).logs,
       e.node = "block_improver") := by
  have h1 := C8 rgLLMFailingClassifier rgDoc0 none "f1" "hello" [] [] "boom"
    rfl (fun _ => rfl)
  have h2 := C8 rgLLMFailingClassifier rgDocBlocks none "f2" "improve" ["b1"] []
    "boom" rfl (fun _ => rfl)
  exact ⟨⟨h1.1, (h1.2.1 (by decide)).1, (h1.2.1 (by decide)).2⟩,
    ⟨h2.1, h2.2.2 (by decide)⟩⟩
